import Mathlib

/-!
Verification of the geometry codec in src/fiona/_geometry.pyx.

The module converts between OGR geometry handles and GeoJSON-style
tagged dictionaries.  We embed the Python/Cython code shallowly:

* Python values reachable from the codec (numbers, tuples/lists, None)
  become the inductive `PyV`; geometry dictionaries with a `type` key,
  an optional `coordinates` key and an optional `geometries` key become
  the inductive `Geometry` (an absent key is `Option.none` for the
  `geometries` field and `PyV.none` for the `coordinates` field, which
  matches `dict.get` returning None).
* Coordinate numbers are modelled as `Int`: the codec only moves them
  around, it never performs arithmetic on them.
* Python exceptions become the error type `PyErr` carried in `Except`.
* An OGR geometry handle becomes the inductive `OGRGeom`: a type code,
  a coordinate dimension, a point list and a child list.  The external
  OGR engine is out of scope for the repository; its primitives
  (OGR_G_CreateGeometry, OGR_G_AddPoint, OGR_G_CloseRings, ...) are
  modelled from the specification of the external interface.
-/

namespace Fiona

/-- Python exceptions raised by the codec paths we model. -/
inductive PyErr where
  | keyError : PyErr
  | attributeError : PyErr
  | indexError : PyErr
  | typeError : PyErr
  | valueError : String → PyErr
  deriving DecidableEq, Repr

instance {E A : Type} [DecidableEq E] [DecidableEq A] : DecidableEq (Except E A)
  | Except.ok a, Except.ok b =>
    if h : a = b then isTrue (by rw [h])
    else isFalse (fun hh => h (Except.ok.inj hh))
  | Except.error a, Except.error b =>
    if h : a = b then isTrue (by rw [h])
    else isFalse (fun hh => h (Except.error.inj hh))
  | Except.ok _, Except.error _ => isFalse (fun hh => Except.noConfusion hh)
  | Except.error _, Except.ok _ => isFalse (fun hh => Except.noConfusion hh)

/-- Python values flowing through the codec: None, numbers, and
tuples/lists (both modelled as `seq`). -/
inductive PyV where
  | none : PyV
  | num : Int → PyV
  | seq : List PyV → PyV

/-- A GeoJSON-style geometry dictionary: the `type` string, the value of
`dict.get("coordinates")` (with `PyV.none` for a missing key) and the
value of `dict.get("geometries")` (with `Option.none` for a missing
key). -/
inductive Geometry where
  | mk : String → PyV → Option (List Geometry) → Geometry

/-- An OGR geometry handle: raw type code, coordinate dimension, stored
points (x, y, z; z is 0 when the point was added with the 2D call) and
child geometries in index order. -/
inductive OGRGeom where
  | mk : Nat → Nat → List (Int × Int × Int) → List OGRGeom → OGRGeom

def OGRGeom.gtype : OGRGeom → Nat
  | .mk t _ _ _ => t

def OGRGeom.ndims : OGRGeom → Nat
  | .mk _ d _ _ => d

def OGRGeom.points : OGRGeom → List (Int × Int × Int)
  | .mk _ _ p _ => p

def OGRGeom.parts : OGRGeom → List OGRGeom
  | .mk _ _ _ ps => ps

/-- GEOMETRY_TYPES: the OGR code to GeoJSON name table, as an
association list in source order. -/
def GEOMETRY_TYPES : List (Nat × String) :=
  [(0, "Unknown"), (1, "Point"), (2, "LineString"), (3, "Polygon"),
   (4, "MultiPoint"), (5, "MultiLineString"), (6, "MultiPolygon"),
   (7, "GeometryCollection"), (100, "None"), (101, "LinearRing"),
   (0x80000001, "3D Point"), (0x80000002, "3D LineString"),
   (0x80000003, "3D Polygon"), (0x80000004, "3D MultiPoint"),
   (0x80000005, "3D MultiLineString"), (0x80000006, "3D MultiPolygon"),
   (0x80000007, "3D GeometryCollection")]

/-- The expression `code & (~0x80000000)` from GeomBuilder.build.  The
code is a Cython unsigned int, hence below 2^32, so the Python bitwise
AND with the unbounded integer ~0x80000000 clears exactly bit 31. -/
def maskCode (code : Nat) : Nat := code &&& 0x7FFFFFFF

/-- The lookup `GEOMETRY_TYPES[self.code & (~0x80000000)]` performed in
GeomBuilder.build: a Python dict subscript raises KeyError when the
masked code is absent. -/
def nameForCode (code : Nat) : Except PyErr String :=
  match GEOMETRY_TYPES.lookup (maskCode code) with
  | some n => Except.ok n
  | Option.none => Except.error PyErr.keyError

/-- GEOJSON2OGR_GEOMETRY_TYPES: the inverse dict built by
`dict((v, k) for k, v in GEOMETRY_TYPES.iteritems())`; lookup of an
absent name is a KeyError, modelled as `Option.none`. -/
def GEOJSON2OGR_GEOMETRY_TYPES (name : String) : Option Nat :=
  (GEOMETRY_TYPES.map (fun kv => (kv.2, kv.1))).lookup name

/-! ## The external engine

Modelled from the spec: the repository treats the OGR engine as an
opaque collaborator; these definitions realise the external interface
of section 6 of the specification (createGeometry, addPoint2D,
addPoint3D, closeRing, addChildOwned and the read accessors). -/

/-- Modelled from the spec: `createGeometry(typeCode)`; a fresh handle
has the requested type code, coordinate dimension 2, no points and no
children.  The model engine always allocates, so the
HandleCreationFailed branch of `_createOgrGeometry` is never taken. -/
def OGR_G_CreateGeometry (t : Nat) : OGRGeom := OGRGeom.mk t 2 [] []

/-- Modelled from the spec: `addPoint2D(handle, x, y)` appends a point
and leaves the coordinate dimension unchanged (z is stored as 0). -/
def OGR_G_AddPoint_2D (g : OGRGeom) (x y : Int) : OGRGeom :=
  OGRGeom.mk g.gtype g.ndims (g.points ++ [(x, y, 0)]) g.parts

/-- Modelled from the spec: `addPoint3D(handle, x, y, z)` appends a
point and makes the geometry 3D. -/
def OGR_G_AddPoint (g : OGRGeom) (x y z : Int) : OGRGeom :=
  OGRGeom.mk g.gtype 3 (g.points ++ [(x, y, z)]) g.parts

/-- Modelled from the spec: `closeRing(handle)`; when the handle has at
least two points and the first differs from the last, the first point
is appended, so that afterwards the first and last coincide; the
operation is a no-op on an already closed ring. -/
def OGR_G_CloseRings (g : OGRGeom) : OGRGeom :=
  if g.points.length < 2 then g
  else if g.points.head? = g.points.getLast? then g
  else
    match g.points.head? with
    | some f => OGRGeom.mk g.gtype g.ndims (g.points ++ [f]) g.parts
    | Option.none => g

/-- Modelled from the spec: `addChildOwned(parent, child)` appends the
child to the parent, transferring ownership. -/
def OGR_G_AddGeometryDirectly (g child : OGRGeom) : OGRGeom :=
  OGRGeom.mk g.gtype g.ndims g.points (g.parts ++ [child])

/-- Modelled from the spec: `getCoordinateDimension(handle)`. -/
def OGR_G_GetCoordinateDimension (g : OGRGeom) : Nat := g.ndims

/-- Modelled from the spec: `getGeometryType(handle)` returns the raw
type code (the unsigned int cast happens at the use site). -/
def OGR_G_GetGeometryType (g : OGRGeom) : Nat := g.gtype

/-! ## GeomBuilder: decoding an OGR handle into a GeoJSON dictionary -/

namespace GeomBuilder

/-- One tuple built inside `_buildCoords`: `values = [getX, getY]`,
followed by appending getZ when the dimension read at the subtree root
exceeds 2, then `tuple(values)`. -/
def coordTuple (ndims : Nat) (p : Int × Int × Int) : PyV :=
  PyV.seq ([PyV.num p.1, PyV.num p.2.1] ++
    (if ndims > 2 then [PyV.num p.2.2] else []))

/-- `_buildCoords`: raises on a null handle, otherwise reads the points
in index order, each through `coordTuple` with the dimension stored on
the builder (`self.ndims`). -/
def _buildCoords (ndims : Nat) (geom : Option OGRGeom) :
    Except PyErr (List PyV) :=
  match geom with
  | Option.none => Except.error (PyErr.valueError "Null geom")
  | some g => Except.ok (g.points.map (coordTuple ndims))

/-- The comprehension `[p["coordinates"] for p in parts]` used by the
Polygon and Multi* decoders: a part without a coordinates key (a
decoded GeometryCollection) raises KeyError. -/
def coordsOfParts : List Geometry → Except PyErr (List PyV)
  | [] => Except.ok []
  | Geometry.mk _ c _ :: ps =>
    match c with
    | PyV.none => Except.error PyErr.keyError
    | v =>
      match coordsOfParts ps with
      | Except.error e => Except.error e
      | Except.ok vs => Except.ok (v :: vs)

mutual

/-- The non-null path of GeomBuilder.build: reads the type code (cast
to unsigned int), resolves the name via GEOMETRY_TYPES after masking
bit 31, reads the coordinate dimension, then dispatches through
`getattr(self, "_build" + name)`; a registry name with no matching
method (Unknown, None) raises AttributeError.  The `_buildPoint`,
`_buildLineString`, ... method bodies are inlined in the arms, and so
is the `_buildParts(self.geom)` call of the compound arms (the handle
is destructured so that the recursion is structural). -/
def buildNN : OGRGeom → Except PyErr Geometry
  | g@(OGRGeom.mk _ _ _ ps) =>
    let etype := OGR_G_GetGeometryType g % 4294967296
    match nameForCode etype with
    | Except.error e => Except.error e
    | Except.ok name =>
      let ndims := OGR_G_GetCoordinateDimension g
      if name = "Point" then
        match _buildCoords ndims (some g) with
        | Except.error e => Except.error e
        | Except.ok coords =>
          match coords.head? with
          | Option.none => Except.error PyErr.indexError
          | some c => Except.ok (Geometry.mk "Point" c Option.none)
      else if name = "LineString" then
        match _buildCoords ndims (some g) with
        | Except.error e => Except.error e
        | Except.ok coords =>
          Except.ok (Geometry.mk "LineString" (PyV.seq coords) Option.none)
      else if name = "LinearRing" then
        match _buildCoords ndims (some g) with
        | Except.error e => Except.error e
        | Except.ok coords =>
          Except.ok (Geometry.mk "LinearRing" (PyV.seq coords) Option.none)
      else if name = "Polygon" then
        match buildList ps with
        | Except.error e => Except.error e
        | Except.ok parts =>
          match coordsOfParts parts with
          | Except.error e => Except.error e
          | Except.ok cs =>
            Except.ok (Geometry.mk "Polygon" (PyV.seq cs) Option.none)
      else if name = "MultiPoint" then
        match buildList ps with
        | Except.error e => Except.error e
        | Except.ok parts =>
          match coordsOfParts parts with
          | Except.error e => Except.error e
          | Except.ok cs =>
            Except.ok (Geometry.mk "MultiPoint" (PyV.seq cs) Option.none)
      else if name = "MultiLineString" then
        match buildList ps with
        | Except.error e => Except.error e
        | Except.ok parts =>
          match coordsOfParts parts with
          | Except.error e => Except.error e
          | Except.ok cs =>
            Except.ok (Geometry.mk "MultiLineString" (PyV.seq cs) Option.none)
      else if name = "MultiPolygon" then
        match buildList ps with
        | Except.error e => Except.error e
        | Except.ok parts =>
          match coordsOfParts parts with
          | Except.error e => Except.error e
          | Except.ok cs =>
            Except.ok (Geometry.mk "MultiPolygon" (PyV.seq cs) Option.none)
      else if name = "GeometryCollection" then
        match buildList ps with
        | Except.error e => Except.error e
        | Except.ok parts =>
          Except.ok (Geometry.mk "GeometryCollection" PyV.none (some parts))
      else Except.error PyErr.attributeError
termination_by structural g => g

/-- The loop body of `_buildParts`: `GeomBuilder().build(part)` for
each part, first failure propagating; child references obtained from
the parent handle are never null in the model, so the recursive build
call takes the non-null path. -/
def buildList : List OGRGeom → Except PyErr (List Geometry)
  | [] => Except.ok []
  | p :: ps =>
    match buildNN p with
    | Except.error e => Except.error e
    | Except.ok t =>
      match buildList ps with
      | Except.error e => Except.error e
      | Except.ok ts => Except.ok (t :: ts)
termination_by structural l => l

end

/-- `_buildParts`: raises on a null handle at build entry in the
source; in the model it iterates the child references of the handle in
index order, decoding each with a fresh GeomBuilder. -/
def _buildParts : OGRGeom → Except PyErr (List Geometry)
  | OGRGeom.mk _ _ _ ps => buildList ps

/-- GeomBuilder.build: the only method anyone needs to call; raises
ValueError on a null handle, otherwise proceeds on the non-null
path. -/
def build : Option OGRGeom → Except PyErr Geometry
  | Option.none => Except.error (PyErr.valueError "Null geom")
  | some g => buildNN g

end GeomBuilder

/-! ## OGRGeomBuilder: encoding a GeoJSON dictionary into a handle -/

namespace OGRGeomBuilder

/-- `_createOgrGeometry` looks up the type code for a literal name in
GEOJSON2OGR_GEOMETRY_TYPES and asks the engine for a fresh handle; the
dict lookup would raise KeyError for an unmapped name (never the case
for the eight literal uses in the source). -/
def createFor (name : String) : Except PyErr OGRGeom :=
  match GEOJSON2OGR_GEOMETRY_TYPES name with
  | some t => Except.ok (OGR_G_CreateGeometry t)
  | Option.none => Except.error PyErr.keyError

/-- `_addPointToGeometry`: a coordinate of length exactly 2 goes to the
2D add-point call; any other length is unpacked as
`x, y, z = coordinate[:3]` (ValueError when fewer than three values are
available, i.e. length 0 or 1) and goes to the 3D call, silently
dropping components beyond the third.  Taking `len` of a non-sequence
raises TypeError, as does passing non-numeric components to the engine
call. -/
def _addPointToGeometry (g : OGRGeom) (coordinate : PyV) :
    Except PyErr OGRGeom :=
  match coordinate with
  | PyV.seq vs =>
    if vs.length = 2 then
      match vs with
      | [PyV.num x, PyV.num y] => Except.ok (OGR_G_AddPoint_2D g x y)
      | _ => Except.error PyErr.typeError
    else
      match vs.take 3 with
      | [PyV.num x, PyV.num y, PyV.num z] => Except.ok (OGR_G_AddPoint g x y z)
      | _ =>
        if vs.length < 2 then Except.error (PyErr.valueError "unpack")
        else Except.error PyErr.typeError
  | _ => Except.error PyErr.typeError

/-- Iterating a Python value in a for loop: sequences yield their
elements, anything else (None, a number) raises TypeError. -/
def pyIter : PyV → Except PyErr (List PyV)
  | PyV.seq vs => Except.ok vs
  | _ => Except.error PyErr.typeError

/-- The `for coordinate in coordinates: self._addPointToGeometry(...)`
loop shared by `_buildLineString` and `_buildLinearRing`. -/
def addAll (g : OGRGeom) : List PyV → Except PyErr OGRGeom
  | [] => Except.ok g
  | c :: cs =>
    match _addPointToGeometry g c with
    | Except.error e => Except.error e
    | Except.ok g2 => addAll g2 cs

/-- `_buildPoint`: create a Point handle and add the one coordinate. -/
def _buildPoint (coordinates : PyV) : Except PyErr OGRGeom :=
  match createFor "Point" with
  | Except.error e => Except.error e
  | Except.ok g => _addPointToGeometry g coordinates

/-- `_buildLineString`: create a LineString handle and add each
coordinate in sequence order. -/
def _buildLineString (coordinates : PyV) : Except PyErr OGRGeom :=
  match createFor "LineString" with
  | Except.error e => Except.error e
  | Except.ok g =>
    match pyIter coordinates with
    | Except.error e => Except.error e
    | Except.ok cs => addAll g cs

/-- `_buildLinearRing`: like `_buildLineString` with a LinearRing
handle, then `OGR_G_CloseRings`. -/
def _buildLinearRing (coordinates : PyV) : Except PyErr OGRGeom :=
  match createFor "LinearRing" with
  | Except.error e => Except.error e
  | Except.ok g =>
    match pyIter coordinates with
    | Except.error e => Except.error e
    | Except.ok cs =>
      match addAll g cs with
      | Except.error e => Except.error e
      | Except.ok g2 => Except.ok (OGR_G_CloseRings g2)

/-- The `for part in coordinates: build the part, attach it` loop shared
by `_buildPolygon` and the Multi* builders, with `f` the singular
builder. -/
def buildSubList (f : PyV → Except PyErr OGRGeom) (g : OGRGeom) :
    List PyV → Except PyErr OGRGeom
  | [] => Except.ok g
  | c :: cs =>
    match f c with
    | Except.error e => Except.error e
    | Except.ok part => buildSubList f (OGR_G_AddGeometryDirectly g part) cs

/-- `_buildPolygon`: create a Polygon handle; each ring becomes a
LinearRing sub-handle attached with ownership transfer. -/
def _buildPolygon (coordinates : PyV) : Except PyErr OGRGeom :=
  match createFor "Polygon" with
  | Except.error e => Except.error e
  | Except.ok g =>
    match pyIter coordinates with
    | Except.error e => Except.error e
    | Except.ok rings => buildSubList _buildLinearRing g rings

/-- `_buildMultiPoint`. -/
def _buildMultiPoint (coordinates : PyV) : Except PyErr OGRGeom :=
  match createFor "MultiPoint" with
  | Except.error e => Except.error e
  | Except.ok g =>
    match pyIter coordinates with
    | Except.error e => Except.error e
    | Except.ok cs => buildSubList _buildPoint g cs

/-- `_buildMultiLineString`. -/
def _buildMultiLineString (coordinates : PyV) : Except PyErr OGRGeom :=
  match createFor "MultiLineString" with
  | Except.error e => Except.error e
  | Except.ok g =>
    match pyIter coordinates with
    | Except.error e => Except.error e
    | Except.ok ls => buildSubList _buildLineString g ls

/-- `_buildMultiPolygon`. -/
def _buildMultiPolygon (coordinates : PyV) : Except PyErr OGRGeom :=
  match createFor "MultiPolygon" with
  | Except.error e => Except.error e
  | Except.ok g =>
    match pyIter coordinates with
    | Except.error e => Except.error e
    | Except.ok ps => buildSubList _buildPolygon g ps

mutual

/-- OGRGeomBuilder.build: reads `geometry["type"]` and
`geometry.get("coordinates")`, dispatches on the literal type name, and
raises ValueError for any unsupported name; for GeometryCollection the
payload is `geometry.get("geometries")` instead. -/
def build : Geometry → Except PyErr OGRGeom
  | Geometry.mk typename coordinates geometries =>
    if typename = "Point" then _buildPoint coordinates
    else if typename = "LineString" then _buildLineString coordinates
    else if typename = "LinearRing" then _buildLinearRing coordinates
    else if typename = "Polygon" then _buildPolygon coordinates
    else if typename = "MultiPoint" then _buildMultiPoint coordinates
    else if typename = "MultiLineString" then _buildMultiLineString coordinates
    else if typename = "MultiPolygon" then _buildMultiPolygon coordinates
    else if typename = "GeometryCollection" then
      _buildGeometryCollection geometries
    else Except.error (PyErr.valueError "Unsupported geometry type")

/-- `_buildGeometryCollection`: create a GeometryCollection handle and
recursively encode and attach every nested geometry; iterating a
missing `geometries` entry (None) raises TypeError. -/
def _buildGeometryCollection : Option (List Geometry) → Except PyErr OGRGeom
  | Option.none => Except.error PyErr.typeError
  | some parts =>
    match createFor "GeometryCollection" with
    | Except.error e => Except.error e
    | Except.ok g => gcLoop g parts

/-- The loop of `_buildGeometryCollection`: `OGRGeomBuilder().build(part)`
then attach, first failure propagating. -/
def gcLoop : OGRGeom → List Geometry → Except PyErr OGRGeom
  | g, [] => Except.ok g
  | g, t :: ts =>
    match build t with
    | Except.error e => Except.error e
    | Except.ok part => gcLoop (OGR_G_AddGeometryDirectly g part) ts

end

end OGRGeomBuilder

/-- geometryRT: encode the tree to a handle, decode the handle back,
destroy the handle (destruction does not affect the decoded plain
value) and return the decoded tree. -/
def geometryRT (geometry : Geometry) : Except PyErr Geometry :=
  match OGRGeomBuilder.build geometry with
  | Except.error e => Except.error e
  | Except.ok g => GeomBuilder.build (some g)

/-! ## Live-handle accounting for the resource-discipline claim

The pure model above erases handle lifetimes.  For the ownership claim
we re-run the exact control flow of `build_wkb`, `_buildLinearRing` and
`_buildPolygon` while counting live root handles: engine creation adds
one, `_deleteOgrGeom` removes one, and `OGR_G_AddGeometryDirectly`
turns a root into an owned child (removing one root).  A Python
exception propagates past any statements that follow it, exactly as in
the source, so no cleanup runs unless the source runs it. -/

/-- GeomBuilder.build_wkb with live-root accounting.  Modelled from the
spec: the engine import primitive of `_createOgrGeomFromWKB` is
represented by the already-imported handle `g`; creating it makes one
live root.  The source then runs `self.build(...)` and only afterwards
`_deleteOgrGeom(...)`, so when build raises, the deletion statement is
skipped. -/
def build_wkb_counted (g : OGRGeom) (live : Nat) :
    Except PyErr Geometry × Nat :=
  let live1 := live + 1
  match GeomBuilder.build (some g) with
  | Except.error e => (Except.error e, live1)
  | Except.ok r => (Except.ok r, live1 - 1)

/-- OGRGeomBuilder._buildLinearRing with live-root accounting: the ring
handle is created first; a failure while adding points propagates with
the ring handle still live and unreleased. -/
def buildLinearRing_counted (coordinates : PyV) (live : Nat) :
    Except PyErr OGRGeom × Nat :=
  match OGRGeomBuilder.createFor "LinearRing" with
  | Except.error e => (Except.error e, live)
  | Except.ok g =>
    let live1 := live + 1
    match OGRGeomBuilder.pyIter coordinates with
    | Except.error e => (Except.error e, live1)
    | Except.ok cs =>
      match OGRGeomBuilder.addAll g cs with
      | Except.error e => (Except.error e, live1)
      | Except.ok g2 => (Except.ok (OGR_G_CloseRings g2), live1)

/-- The ring loop of OGRGeomBuilder._buildPolygon with live-root
accounting: a successfully built ring stops being a root when attached
to the polygon; a ring failure propagates with everything built so far
still live. -/
def polyLoop_counted (g : OGRGeom) :
    List PyV → Nat → Except PyErr OGRGeom × Nat
  | [], live => (Except.ok g, live)
  | r :: rs, live =>
    match buildLinearRing_counted r live with
    | (Except.error e, live2) => (Except.error e, live2)
    | (Except.ok ring, live2) =>
      polyLoop_counted (OGR_G_AddGeometryDirectly g ring) rs (live2 - 1)

/-- OGRGeomBuilder._buildPolygon with live-root accounting. -/
def buildPolygon_counted (coordinates : PyV) (live : Nat) :
    Except PyErr OGRGeom × Nat :=
  match OGRGeomBuilder.createFor "Polygon" with
  | Except.error e => (Except.error e, live)
  | Except.ok g =>
    let live1 := live + 1
    match OGRGeomBuilder.pyIter coordinates with
    | Except.error e => (Except.error e, live1)
    | Except.ok rings => polyLoop_counted g rings live1

/-! ## Well-formed coordinate data

The round-trip claims quantify over well-formed coordinate payloads:
positions of two or three numeric components, with a uniform arity
inside each single coordinate sequence (a sequence mixing 2D and 3D
positions makes the engine promote the whole geometry to 3D, which
already changes the data).  The grammar below generates exactly those
payloads; `toGeometry` embeds it into the Python-value trees that the
codec consumes. -/

/-- A well-formed position: two or three numeric components. -/
inductive Pos where
  | p2 : Int → Int → Pos
  | p3 : Int → Int → Int → Pos

/-- A well-formed coordinate sequence of uniform arity. -/
inductive Line where
  | l2 : List (Int × Int) → Line
  | l3 : List (Int × Int × Int) → Line

/-- A well-formed geometry tree, by supported type name. -/
inductive GTree where
  | point : Pos → GTree
  | lineString : Line → GTree
  | linearRing : Line → GTree
  | polygon : List Line → GTree
  | multiPoint : List Pos → GTree
  | multiLineString : List Line → GTree
  | multiPolygon : List (List Line) → GTree
  | geometryCollection : List GTree → GTree

/-- The Python value of a position. -/
def posVal : Pos → PyV
  | Pos.p2 x y => PyV.seq [PyV.num x, PyV.num y]
  | Pos.p3 x y z => PyV.seq [PyV.num x, PyV.num y, PyV.num z]

/-- The element list of a coordinate sequence. -/
def lineVals : Line → List PyV
  | Line.l2 ps => ps.map (fun q => PyV.seq [PyV.num q.1, PyV.num q.2])
  | Line.l3 ps =>
    ps.map (fun q => PyV.seq [PyV.num q.1, PyV.num q.2.1, PyV.num q.2.2])

/-- The Python value of a coordinate sequence. -/
def lineVal (l : Line) : PyV := PyV.seq (lineVals l)

/-- The Python value of a polygon coordinate payload. -/
def polyVal (rs : List Line) : PyV := PyV.seq (rs.map lineVal)

mutual

/-- The geometry dictionary of a well-formed tree. -/
def toGeometry : GTree → Geometry
  | GTree.point p => Geometry.mk "Point" (posVal p) Option.none
  | GTree.lineString l => Geometry.mk "LineString" (lineVal l) Option.none
  | GTree.linearRing l => Geometry.mk "LinearRing" (lineVal l) Option.none
  | GTree.polygon rs => Geometry.mk "Polygon" (polyVal rs) Option.none
  | GTree.multiPoint ps =>
    Geometry.mk "MultiPoint" (PyV.seq (ps.map posVal)) Option.none
  | GTree.multiLineString ls =>
    Geometry.mk "MultiLineString" (PyV.seq (ls.map lineVal)) Option.none
  | GTree.multiPolygon pp =>
    Geometry.mk "MultiPolygon" (PyV.seq (pp.map polyVal)) Option.none
  | GTree.geometryCollection gs =>
    Geometry.mk "GeometryCollection" PyV.none (some (toGeometryList gs))

/-- Pointwise `toGeometry` on a list of nested trees. -/
def toGeometryList : List GTree → List Geometry
  | [] => []
  | g :: gs => toGeometry g :: toGeometryList gs

end

/-- Whether a uniform coordinate sequence is closed: first and last
entries coincide (vacuously true below two points). -/
def closedLineB : Line → Bool
  | Line.l2 ps => ps.head? == ps.getLast?
  | Line.l3 ps => ps.head? == ps.getLast?

mutual

/-- Whether every LinearRing payload and every polygon ring in the tree
is already closed. -/
def ringsClosedB : GTree → Bool
  | GTree.point _ => true
  | GTree.lineString _ => true
  | GTree.linearRing l => closedLineB l
  | GTree.polygon rs => rs.all closedLineB
  | GTree.multiPoint _ => true
  | GTree.multiLineString _ => true
  | GTree.multiPolygon pp => pp.all (fun rs => rs.all closedLineB)
  | GTree.geometryCollection gs => ringsClosedList gs

/-- Pointwise `ringsClosedB` on a list of nested trees. -/
def ringsClosedList : List GTree → Bool
  | [] => true
  | g :: gs => ringsClosedB g && ringsClosedList gs

end

/-- Coordinate dimension the engine ends up with after adding a
uniform sequence to a fresh (2D) handle. -/
def lineDim : Line → Nat
  | Line.l2 _ => 2
  | Line.l3 ps => if ps.isEmpty then 2 else 3

/-- The stored point triples after adding a uniform sequence. -/
def lineTriples : Line → List (Int × Int × Int)
  | Line.l2 ps => ps.map (fun q => (q.1, q.2, (0 : Int)))
  | Line.l3 ps => ps

/-- The handle produced by encoding a Point payload. -/
def pointHandle : Pos → OGRGeom
  | Pos.p2 x y => OGRGeom.mk 1 2 [(x, y, 0)] []
  | Pos.p3 x y z => OGRGeom.mk 1 3 [(x, y, z)] []

/-- The handle produced by encoding a LineString payload. -/
def lineHandle (l : Line) : OGRGeom :=
  OGRGeom.mk 2 (lineDim l) (lineTriples l) []

/-- The handle produced by encoding an already closed LinearRing
payload. -/
def ringHandle (l : Line) : OGRGeom :=
  OGRGeom.mk 101 (lineDim l) (lineTriples l) []

/-- The handle produced by encoding a Polygon payload with closed
rings. -/
def polyHandle (rs : List Line) : OGRGeom :=
  OGRGeom.mk 3 2 [] (rs.map ringHandle)

/-! ## Third coordinate components in decoded output, and uniformly 2D
handles -/

/-- Whether a Python value is a bare number. -/
def isNumB : PyV → Bool
  | PyV.num _ => true
  | _ => false

mutual

/-- Whether a Python value contains, anywhere, a coordinate tuple with
at least three numeric components. -/
def hasTriple : PyV → Bool
  | PyV.none => false
  | PyV.num _ => false
  | PyV.seq vs => (vs.all isNumB && decide (3 ≤ vs.length)) || anyTriple vs

/-- Pointwise `hasTriple` over a list of values. -/
def anyTriple : List PyV → Bool
  | [] => false
  | v :: vs => hasTriple v || anyTriple vs

end

/-- The coordinates entry of a geometry dictionary. -/
def Geometry.coordinates : Geometry → PyV
  | Geometry.mk _ c _ => c

mutual

/-- Whether a geometry dictionary contains a three-component
coordinate anywhere, including inside nested collection members. -/
def geomHasTriple : Geometry → Bool
  | Geometry.mk _ c Option.none => hasTriple c
  | Geometry.mk _ c (some l) => hasTriple c || geomListAnyTriple l

/-- Pointwise `geomHasTriple` over a list of dictionaries. -/
def geomListAnyTriple : List Geometry → Bool
  | [] => false
  | g :: gs => geomHasTriple g || geomListAnyTriple gs

end

mutual

/-- Whether every node of a handle reports a coordinate dimension of
at most 2. -/
def dim2All : OGRGeom → Bool
  | OGRGeom.mk _ d _ ps => decide (d ≤ 2) && dim2AllList ps

/-- Pointwise `dim2All` over a list of handles. -/
def dim2AllList : List OGRGeom → Bool
  | [] => true
  | g :: gs => dim2All g && dim2AllList gs

end

/-! ## Induction principles for the nested tree types -/

mutual

/-- Induction on a well-formed tree with access to the hypothesis for
every member of a collection. -/
def GTree.indOn (motive : GTree → Prop)
    (hpoint : ∀ p, motive (GTree.point p))
    (hls : ∀ l, motive (GTree.lineString l))
    (hlr : ∀ l, motive (GTree.linearRing l))
    (hpoly : ∀ rs, motive (GTree.polygon rs))
    (hmp : ∀ ps, motive (GTree.multiPoint ps))
    (hmls : ∀ ls, motive (GTree.multiLineString ls))
    (hmpoly : ∀ pp, motive (GTree.multiPolygon pp))
    (hgc : ∀ gs, (∀ g ∈ gs, motive g) → motive (GTree.geometryCollection gs)) :
    ∀ t, motive t
  | GTree.point p => hpoint p
  | GTree.lineString l => hls l
  | GTree.linearRing l => hlr l
  | GTree.polygon rs => hpoly rs
  | GTree.multiPoint ps => hmp ps
  | GTree.multiLineString ls => hmls ls
  | GTree.multiPolygon pp => hmpoly pp
  | GTree.geometryCollection gs =>
    hgc gs (GTree.indList motive hpoint hls hlr hpoly hmp hmls hmpoly hgc gs)

/-- Member access used by `GTree.indOn`. -/
def GTree.indList (motive : GTree → Prop)
    (hpoint : ∀ p, motive (GTree.point p))
    (hls : ∀ l, motive (GTree.lineString l))
    (hlr : ∀ l, motive (GTree.linearRing l))
    (hpoly : ∀ rs, motive (GTree.polygon rs))
    (hmp : ∀ ps, motive (GTree.multiPoint ps))
    (hmls : ∀ ls, motive (GTree.multiLineString ls))
    (hmpoly : ∀ pp, motive (GTree.multiPolygon pp))
    (hgc : ∀ gs, (∀ g ∈ gs, motive g) → motive (GTree.geometryCollection gs)) :
    ∀ gs : List GTree, ∀ g ∈ gs, motive g
  | q :: _, _, List.Mem.head _ =>
    GTree.indOn motive hpoint hls hlr hpoly hmp hmls hmpoly hgc q
  | _ :: qs, g, List.Mem.tail _ hp =>
    GTree.indList motive hpoint hls hlr hpoly hmp hmls hmpoly hgc qs g hp

end

mutual

/-- Induction on a handle with access to the hypothesis for every
child. -/
def OGRGeom.indOn (motive : OGRGeom → Prop)
    (h : ∀ c d pts ps, (∀ p ∈ ps, motive p) → motive (OGRGeom.mk c d pts ps)) :
    ∀ g, motive g
  | OGRGeom.mk c d pts ps => h c d pts ps (OGRGeom.indList motive h ps)

/-- Child access used by `OGRGeom.indOn`. -/
def OGRGeom.indList (motive : OGRGeom → Prop)
    (h : ∀ c d pts ps, (∀ p ∈ ps, motive p) → motive (OGRGeom.mk c d pts ps)) :
    ∀ ps : List OGRGeom, ∀ p ∈ ps, motive p
  | q :: _, _, List.Mem.head _ => OGRGeom.indOn motive h q
  | _ :: qs, p, List.Mem.tail _ hp => OGRGeom.indList motive h qs p hp

end

/-! ## Encoding a uniform coordinate sequence -/

lemma addAll_l2 (ps : List (Int × Int)) : ∀ t d pts prts,
    OGRGeomBuilder.addAll (OGRGeom.mk t d pts prts) (lineVals (Line.l2 ps)) =
      Except.ok (OGRGeom.mk t d (pts ++ lineTriples (Line.l2 ps)) prts) := by
  induction ps with
  | nil =>
    intro t d pts prts
    simp [lineVals, lineTriples, OGRGeomBuilder.addAll]
  | cons q qs ih =>
    intro t d pts prts
    calc OGRGeomBuilder.addAll (OGRGeom.mk t d pts prts)
          (lineVals (Line.l2 (q :: qs)))
        = OGRGeomBuilder.addAll (OGRGeom.mk t d (pts ++ [(q.1, q.2, 0)]) prts)
            (lineVals (Line.l2 qs)) := rfl
      _ = Except.ok (OGRGeom.mk t d
            ((pts ++ [(q.1, q.2, 0)]) ++ lineTriples (Line.l2 qs)) prts) :=
        ih t d (pts ++ [(q.1, q.2, 0)]) prts
      _ = Except.ok (OGRGeom.mk t d
            (pts ++ lineTriples (Line.l2 (q :: qs))) prts) := by
        simp [lineTriples]

lemma addAll_l3 (ps : List (Int × Int × Int)) : ∀ t d pts prts,
    OGRGeomBuilder.addAll (OGRGeom.mk t d pts prts) (lineVals (Line.l3 ps)) =
      Except.ok (OGRGeom.mk t (if ps.isEmpty then d else 3) (pts ++ ps) prts) := by
  induction ps with
  | nil =>
    intro t d pts prts
    simp [lineVals, OGRGeomBuilder.addAll]
  | cons q qs ih =>
    intro t d pts prts
    calc OGRGeomBuilder.addAll (OGRGeom.mk t d pts prts)
          (lineVals (Line.l3 (q :: qs)))
        = OGRGeomBuilder.addAll (OGRGeom.mk t 3 (pts ++ [q]) prts)
            (lineVals (Line.l3 qs)) := rfl
      _ = Except.ok (OGRGeom.mk t (if qs.isEmpty then 3 else 3)
            ((pts ++ [q]) ++ qs) prts) := ih t 3 (pts ++ [q]) prts
      _ = Except.ok (OGRGeom.mk t (if (q :: qs).isEmpty then d else 3)
            (pts ++ q :: qs) prts) := by simp

/-! ## Ring closing on the stored triples -/

lemma short_list_closed {A : Type} (ps : List A) (h : ps.length < 2) :
    ps.head? = ps.getLast? := by
  match ps with
  | [] => rfl
  | [a] => rfl
  | a :: b :: t =>
    simp only [List.length_cons] at h
    exact absurd h (by omega)

lemma closeRings_closed (g : OGRGeom) (h : g.points.head? = g.points.getLast?) :
    OGR_G_CloseRings g = g := by
  simp [OGR_G_CloseRings, h]

lemma closeRings_unclosed (g : OGRGeom) (f : Int × Int × Int)
    (hf : g.points.head? = some f) (h : ¬ g.points.head? = g.points.getLast?) :
    OGR_G_CloseRings g =
      OGRGeom.mk g.gtype g.ndims (g.points ++ [f]) g.parts := by
  unfold OGR_G_CloseRings
  rw [if_neg (fun hlt => h (short_list_closed g.points hlt)), if_neg h, hf]

lemma lineTriples_closed_iff (l : Line) :
    ((lineTriples l).head? = (lineTriples l).getLast?) ↔ closedLineB l = true := by
  cases l with
  | l2 ps =>
    have hinj : Function.Injective (fun q : Int × Int => (q.1, q.2, (0 : Int))) := by
      intro a b hab
      simp only [Prod.mk.injEq] at hab
      exact Prod.ext hab.1 hab.2.1
    simp only [lineTriples, closedLineB, List.head?_map, List.getLast?_map,
      beq_iff_eq]
    constructor
    · intro h
      exact Option.map_injective hinj h
    · intro h
      rw [h]
  | l3 ps => simp [lineTriples, closedLineB]

/-! ## Decoder equations at fixed type codes -/

lemma decodeNN_code1 (d : Nat) (pts : List (Int × Int × Int))
    (prts : List OGRGeom) :
    GeomBuilder.buildNN (OGRGeom.mk 1 d pts prts) =
      (match (pts.map (GeomBuilder.coordTuple d)).head? with
       | Option.none => Except.error PyErr.indexError
       | some c => Except.ok (Geometry.mk "Point" c Option.none)) := by
  have h1 : OGR_G_GetGeometryType (OGRGeom.mk 1 d pts prts) % 4294967296 = 1 := rfl
  simp only [GeomBuilder.buildNN, h1]
  rfl

lemma decodeNN_code2 (d : Nat) (pts : List (Int × Int × Int))
    (prts : List OGRGeom) :
    GeomBuilder.buildNN (OGRGeom.mk 2 d pts prts) =
      Except.ok (Geometry.mk "LineString"
        (PyV.seq (pts.map (GeomBuilder.coordTuple d))) Option.none) := by
  have h1 : OGR_G_GetGeometryType (OGRGeom.mk 2 d pts prts) % 4294967296 = 2 := rfl
  simp only [GeomBuilder.buildNN, h1]
  rfl

lemma decodeNN_code101 (d : Nat) (pts : List (Int × Int × Int))
    (prts : List OGRGeom) :
    GeomBuilder.buildNN (OGRGeom.mk 101 d pts prts) =
      Except.ok (Geometry.mk "LinearRing"
        (PyV.seq (pts.map (GeomBuilder.coordTuple d))) Option.none) := by
  have h1 : OGR_G_GetGeometryType (OGRGeom.mk 101 d pts prts) % 4294967296 = 101 := rfl
  simp only [GeomBuilder.buildNN, h1]
  rfl

lemma decodeNN_code3 (d : Nat) (pts : List (Int × Int × Int))
    (prts : List OGRGeom) :
    GeomBuilder.buildNN (OGRGeom.mk 3 d pts prts) =
      (match GeomBuilder.buildList prts with
       | Except.error e => Except.error e
       | Except.ok parts =>
         match GeomBuilder.coordsOfParts parts with
         | Except.error e => Except.error e
         | Except.ok cs =>
           Except.ok (Geometry.mk "Polygon" (PyV.seq cs) Option.none)) := by
  have h1 : OGR_G_GetGeometryType (OGRGeom.mk 3 d pts prts) % 4294967296 = 3 := rfl
  simp only [GeomBuilder.buildNN, h1]
  rfl

lemma decodeNN_code4 (d : Nat) (pts : List (Int × Int × Int))
    (prts : List OGRGeom) :
    GeomBuilder.buildNN (OGRGeom.mk 4 d pts prts) =
      (match GeomBuilder.buildList prts with
       | Except.error e => Except.error e
       | Except.ok parts =>
         match GeomBuilder.coordsOfParts parts with
         | Except.error e => Except.error e
         | Except.ok cs =>
           Except.ok (Geometry.mk "MultiPoint" (PyV.seq cs) Option.none)) := by
  have h1 : OGR_G_GetGeometryType (OGRGeom.mk 4 d pts prts) % 4294967296 = 4 := rfl
  simp only [GeomBuilder.buildNN, h1]
  rfl

lemma decodeNN_code5 (d : Nat) (pts : List (Int × Int × Int))
    (prts : List OGRGeom) :
    GeomBuilder.buildNN (OGRGeom.mk 5 d pts prts) =
      (match GeomBuilder.buildList prts with
       | Except.error e => Except.error e
       | Except.ok parts =>
         match GeomBuilder.coordsOfParts parts with
         | Except.error e => Except.error e
         | Except.ok cs =>
           Except.ok (Geometry.mk "MultiLineString" (PyV.seq cs) Option.none)) := by
  have h1 : OGR_G_GetGeometryType (OGRGeom.mk 5 d pts prts) % 4294967296 = 5 := rfl
  simp only [GeomBuilder.buildNN, h1]
  rfl

lemma decodeNN_code6 (d : Nat) (pts : List (Int × Int × Int))
    (prts : List OGRGeom) :
    GeomBuilder.buildNN (OGRGeom.mk 6 d pts prts) =
      (match GeomBuilder.buildList prts with
       | Except.error e => Except.error e
       | Except.ok parts =>
         match GeomBuilder.coordsOfParts parts with
         | Except.error e => Except.error e
         | Except.ok cs =>
           Except.ok (Geometry.mk "MultiPolygon" (PyV.seq cs) Option.none)) := by
  have h1 : OGR_G_GetGeometryType (OGRGeom.mk 6 d pts prts) % 4294967296 = 6 := rfl
  simp only [GeomBuilder.buildNN, h1]
  rfl

lemma decodeNN_code7 (d : Nat) (pts : List (Int × Int × Int))
    (prts : List OGRGeom) :
    GeomBuilder.buildNN (OGRGeom.mk 7 d pts prts) =
      (match GeomBuilder.buildList prts with
       | Except.error e => Except.error e
       | Except.ok parts =>
         Except.ok (Geometry.mk "GeometryCollection" PyV.none (some parts))) := by
  have h1 : OGR_G_GetGeometryType (OGRGeom.mk 7 d pts prts) % 4294967296 = 7 := rfl
  simp only [GeomBuilder.buildNN, h1]
  rfl

/-! ## Encoder dispatch equations -/

lemma build_point_dispatch (c : PyV) (gs : Option (List Geometry)) :
    OGRGeomBuilder.build (Geometry.mk "Point" c gs) =
      OGRGeomBuilder._buildPoint c := by
  simp only [OGRGeomBuilder.build]
  rfl

lemma build_ls_dispatch (c : PyV) (gs : Option (List Geometry)) :
    OGRGeomBuilder.build (Geometry.mk "LineString" c gs) =
      OGRGeomBuilder._buildLineString c := by
  simp only [OGRGeomBuilder.build]
  rfl

lemma build_lr_dispatch (c : PyV) (gs : Option (List Geometry)) :
    OGRGeomBuilder.build (Geometry.mk "LinearRing" c gs) =
      OGRGeomBuilder._buildLinearRing c := by
  simp only [OGRGeomBuilder.build]
  rfl

lemma build_poly_dispatch (c : PyV) (gs : Option (List Geometry)) :
    OGRGeomBuilder.build (Geometry.mk "Polygon" c gs) =
      OGRGeomBuilder._buildPolygon c := by
  simp only [OGRGeomBuilder.build]
  rfl

lemma build_mp_dispatch (c : PyV) (gs : Option (List Geometry)) :
    OGRGeomBuilder.build (Geometry.mk "MultiPoint" c gs) =
      OGRGeomBuilder._buildMultiPoint c := by
  simp only [OGRGeomBuilder.build]
  rfl

lemma build_mls_dispatch (c : PyV) (gs : Option (List Geometry)) :
    OGRGeomBuilder.build (Geometry.mk "MultiLineString" c gs) =
      OGRGeomBuilder._buildMultiLineString c := by
  simp only [OGRGeomBuilder.build]
  rfl

lemma build_mpoly_dispatch (c : PyV) (gs : Option (List Geometry)) :
    OGRGeomBuilder.build (Geometry.mk "MultiPolygon" c gs) =
      OGRGeomBuilder._buildMultiPolygon c := by
  simp only [OGRGeomBuilder.build]
  rfl

lemma build_gc_dispatch (c : PyV) (gs : Option (List Geometry)) :
    OGRGeomBuilder.build (Geometry.mk "GeometryCollection" c gs) =
      OGRGeomBuilder._buildGeometryCollection gs := by
  simp only [OGRGeomBuilder.build]
  rfl

/-! ## Decoded coordinate tuples of encoded sequences -/

lemma map_congr_fun {A B : Type} (f g : A → B) (l : List A)
    (h : ∀ a, f a = g a) : l.map f = l.map g := by
  induction l with
  | nil => rfl
  | cons a l ih => simp [h, ih]

lemma map_coordTuple_line (l : Line) :
    (lineTriples l).map (GeomBuilder.coordTuple (lineDim l)) = lineVals l := by
  cases l with
  | l2 ps =>
    show ((ps.map fun q => (q.1, q.2, (0 : Int))).map
        (GeomBuilder.coordTuple 2)) = lineVals (Line.l2 ps)
    rw [List.map_map]
    exact map_congr_fun _ _ ps (fun q => rfl)
  | l3 ps =>
    cases ps with
    | nil => rfl
    | cons q qs =>
      show ((q :: qs).map (GeomBuilder.coordTuple 3)) = lineVals (Line.l3 (q :: qs))
      exact map_congr_fun _ _ (q :: qs) (fun q => rfl)

/-! ## Round trip of the leaf geometries -/

/-- The dimension reached from a handle of dimension `d` after adding
a uniform sequence. -/
def lineDimFrom (d : Nat) : Line → Nat
  | Line.l2 _ => d
  | Line.l3 ps => if ps.isEmpty then d else 3

lemma lineDim_eq (l : Line) : lineDim l = lineDimFrom 2 l := by
  cases l <;> rfl

lemma addAll_line (l : Line) (t d : Nat) (pts : List (Int × Int × Int))
    (prts : List OGRGeom) :
    OGRGeomBuilder.addAll (OGRGeom.mk t d pts prts) (lineVals l) =
      Except.ok (OGRGeom.mk t (lineDimFrom d l) (pts ++ lineTriples l) prts) := by
  cases l with
  | l2 ps => rw [addAll_l2]; rfl
  | l3 ps => rw [addAll_l3]; rfl

lemma buildPoint_ok (p : Pos) :
    OGRGeomBuilder._buildPoint (posVal p) = Except.ok (pointHandle p) := by
  cases p <;> rfl

lemma decode_pointHandle (p : Pos) :
    GeomBuilder.buildNN (pointHandle p) =
      Except.ok (Geometry.mk "Point" (posVal p) Option.none) := by
  cases p with
  | p2 x y =>
    show GeomBuilder.buildNN (OGRGeom.mk 1 2 [(x, y, 0)] []) = _
    rw [decodeNN_code1]
    rfl
  | p3 x y z =>
    show GeomBuilder.buildNN (OGRGeom.mk 1 3 [(x, y, z)] []) = _
    rw [decodeNN_code1]
    rfl

lemma buildLineString_ok (l : Line) :
    OGRGeomBuilder._buildLineString (lineVal l) = Except.ok (lineHandle l) := by
  calc OGRGeomBuilder._buildLineString (lineVal l)
      = OGRGeomBuilder.addAll (OGRGeom.mk 2 2 [] []) (lineVals l) := rfl
    _ = Except.ok (OGRGeom.mk 2 (lineDimFrom 2 l) ([] ++ lineTriples l) []) :=
      addAll_line l 2 2 [] []
    _ = Except.ok (lineHandle l) := by
      simp [lineHandle, lineDim_eq]

lemma decode_lineHandle (l : Line) :
    GeomBuilder.buildNN (lineHandle l) =
      Except.ok (Geometry.mk "LineString" (lineVal l) Option.none) := by
  show GeomBuilder.buildNN (OGRGeom.mk 2 (lineDim l) (lineTriples l) []) = _
  rw [decodeNN_code2, map_coordTuple_line]
  rfl

lemma buildLinearRing_closed_ok (l : Line) (h : closedLineB l = true) :
    OGRGeomBuilder._buildLinearRing (lineVal l) = Except.ok (ringHandle l) := by
  have hcl : (lineTriples l).head? = (lineTriples l).getLast? :=
    (lineTriples_closed_iff l).mpr h
  calc OGRGeomBuilder._buildLinearRing (lineVal l)
      = (match OGRGeomBuilder.addAll (OGRGeom.mk 101 2 [] []) (lineVals l) with
         | Except.error e => Except.error e
         | Except.ok g2 => Except.ok (OGR_G_CloseRings g2)) := rfl
    _ = Except.ok (OGR_G_CloseRings
          (OGRGeom.mk 101 (lineDimFrom 2 l) ([] ++ lineTriples l) [])) := by
      rw [addAll_line]
    _ = Except.ok (ringHandle l) := by
      rw [List.nil_append]
      have hcl2 : (OGRGeom.mk 101 (lineDimFrom 2 l) (lineTriples l) []).points.head? =
          (OGRGeom.mk 101 (lineDimFrom 2 l) (lineTriples l) []).points.getLast? := hcl
      rw [closeRings_closed _ hcl2]
      simp [ringHandle, lineDim_eq]

lemma decode_ringHandle (l : Line) :
    GeomBuilder.buildNN (ringHandle l) =
      Except.ok (Geometry.mk "LinearRing" (lineVal l) Option.none) := by
  show GeomBuilder.buildNN (OGRGeom.mk 101 (lineDim l) (lineTriples l) []) = _
  rw [decodeNN_code101, map_coordTuple_line]
  rfl

/-! ## Loop lemmas -/

lemma buildSubList_map {A : Type} (f : PyV → Except PyErr OGRGeom)
    (val : A → PyV) (enc : A → OGRGeom) (xs : List A) :
    ∀ t d pts prts, (∀ x ∈ xs, f (val x) = Except.ok (enc x)) →
      OGRGeomBuilder.buildSubList f (OGRGeom.mk t d pts prts) (xs.map val) =
        Except.ok (OGRGeom.mk t d pts (prts ++ xs.map enc)) := by
  induction xs with
  | nil =>
    intro t d pts prts _
    simp [OGRGeomBuilder.buildSubList]
  | cons x xs ih =>
    intro t d pts prts h
    have hx := h x (List.mem_cons_self x xs)
    have step : OGRGeomBuilder.buildSubList f (OGRGeom.mk t d pts prts)
        ((x :: xs).map val) =
        OGRGeomBuilder.buildSubList f (OGRGeom.mk t d pts (prts ++ [enc x]))
          (xs.map val) := by
      simp only [List.map_cons, OGRGeomBuilder.buildSubList, hx]
      rfl
    rw [step, ih t d pts (prts ++ [enc x])
      (fun y hy => h y (List.mem_cons_of_mem x hy))]
    simp

lemma buildList_map {A : Type} (f : A → OGRGeom) (g : A → Geometry)
    (xs : List A) :
    (∀ x ∈ xs, GeomBuilder.buildNN (f x) = Except.ok (g x)) →
    GeomBuilder.buildList (xs.map f) = Except.ok (xs.map g) := by
  induction xs with
  | nil => intro _; rfl
  | cons x xs ih =>
    intro h
    have hx := h x (List.mem_cons_self x xs)
    have ih2 := ih (fun y hy => h y (List.mem_cons_of_mem x hy))
    simp only [List.map_cons, GeomBuilder.buildList, hx, ih2]

lemma coordsOfParts_map {A : Type} (tn : A → String) (c : A → PyV)
    (xs : List A) :
    (∀ x ∈ xs, c x ≠ PyV.none) →
    GeomBuilder.coordsOfParts
        (xs.map (fun x => Geometry.mk (tn x) (c x) Option.none)) =
      Except.ok (xs.map c) := by
  induction xs with
  | nil => intro _; rfl
  | cons x xs ih =>
    intro h
    have hx := h x (List.mem_cons_self x xs)
    have ih2 := ih (fun y hy => h y (List.mem_cons_of_mem x hy))
    simp only [List.map_cons, GeomBuilder.coordsOfParts]
    cases hc : c x with
    | none => exact absurd hc hx
    | num n => rw [ih2]
    | seq vs => rw [ih2]

/-! ## Round trip of the compound geometries -/

lemma buildPolygon_ok (rs : List Line) (h : rs.all closedLineB = true) :
    OGRGeomBuilder._buildPolygon (polyVal rs) = Except.ok (polyHandle rs) := by
  have hr : ∀ r ∈ rs,
      OGRGeomBuilder._buildLinearRing (lineVal r) = Except.ok (ringHandle r) :=
    fun r hrm => buildLinearRing_closed_ok r (List.all_eq_true.mp h r hrm)
  calc OGRGeomBuilder._buildPolygon (polyVal rs)
      = OGRGeomBuilder.buildSubList OGRGeomBuilder._buildLinearRing
          (OGRGeom.mk 3 2 [] []) (rs.map lineVal) := rfl
    _ = Except.ok (OGRGeom.mk 3 2 [] ([] ++ rs.map ringHandle)) :=
      buildSubList_map _ lineVal ringHandle rs 3 2 [] [] hr
    _ = Except.ok (polyHandle rs) := by simp [polyHandle]

lemma decode_polyHandle (rs : List Line) :
    GeomBuilder.buildNN (polyHandle rs) =
      Except.ok (Geometry.mk "Polygon" (polyVal rs) Option.none) := by
  have h1 : GeomBuilder.buildList (rs.map ringHandle) =
      Except.ok (rs.map (fun r => Geometry.mk "LinearRing" (lineVal r) Option.none)) :=
    buildList_map ringHandle _ rs (fun r _ => decode_ringHandle r)
  have h2 : GeomBuilder.coordsOfParts
      (rs.map (fun r => Geometry.mk "LinearRing" (lineVal r) Option.none)) =
      Except.ok (rs.map lineVal) :=
    coordsOfParts_map (fun _ => "LinearRing") lineVal rs
      (fun r _ => by simp [lineVal])
  show GeomBuilder.buildNN (OGRGeom.mk 3 2 [] (rs.map ringHandle)) = _
  simp only [decodeNN_code3, h1, h2, polyVal]

lemma buildMultiPoint_ok (ps : List Pos) :
    OGRGeomBuilder._buildMultiPoint (PyV.seq (ps.map posVal)) =
      Except.ok (OGRGeom.mk 4 2 [] (ps.map pointHandle)) := by
  calc OGRGeomBuilder._buildMultiPoint (PyV.seq (ps.map posVal))
      = OGRGeomBuilder.buildSubList OGRGeomBuilder._buildPoint
          (OGRGeom.mk 4 2 [] []) (ps.map posVal) := rfl
    _ = Except.ok (OGRGeom.mk 4 2 [] ([] ++ ps.map pointHandle)) :=
      buildSubList_map _ posVal pointHandle ps 4 2 [] []
        (fun p _ => buildPoint_ok p)
    _ = _ := by simp

lemma decode_mpHandle (ps : List Pos) :
    GeomBuilder.buildNN (OGRGeom.mk 4 2 [] (ps.map pointHandle)) =
      Except.ok (Geometry.mk "MultiPoint" (PyV.seq (ps.map posVal)) Option.none) := by
  have h1 : GeomBuilder.buildList (ps.map pointHandle) =
      Except.ok (ps.map (fun p => Geometry.mk "Point" (posVal p) Option.none)) :=
    buildList_map pointHandle _ ps (fun p _ => decode_pointHandle p)
  have h2 : GeomBuilder.coordsOfParts
      (ps.map (fun p => Geometry.mk "Point" (posVal p) Option.none)) =
      Except.ok (ps.map posVal) :=
    coordsOfParts_map (fun _ => "Point") posVal ps
      (fun p _ => by cases p <;> simp [posVal])
  simp only [decodeNN_code4, h1, h2]

lemma buildMultiLineString_ok (ls : List Line) :
    OGRGeomBuilder._buildMultiLineString (PyV.seq (ls.map lineVal)) =
      Except.ok (OGRGeom.mk 5 2 [] (ls.map lineHandle)) := by
  calc OGRGeomBuilder._buildMultiLineString (PyV.seq (ls.map lineVal))
      = OGRGeomBuilder.buildSubList OGRGeomBuilder._buildLineString
          (OGRGeom.mk 5 2 [] []) (ls.map lineVal) := rfl
    _ = Except.ok (OGRGeom.mk 5 2 [] ([] ++ ls.map lineHandle)) :=
      buildSubList_map _ lineVal lineHandle ls 5 2 [] []
        (fun l _ => buildLineString_ok l)
    _ = _ := by simp

lemma decode_mlsHandle (ls : List Line) :
    GeomBuilder.buildNN (OGRGeom.mk 5 2 [] (ls.map lineHandle)) =
      Except.ok (Geometry.mk "MultiLineString"
        (PyV.seq (ls.map lineVal)) Option.none) := by
  have h1 : GeomBuilder.buildList (ls.map lineHandle) =
      Except.ok (ls.map (fun l => Geometry.mk "LineString" (lineVal l) Option.none)) :=
    buildList_map lineHandle _ ls (fun l _ => decode_lineHandle l)
  have h2 : GeomBuilder.coordsOfParts
      (ls.map (fun l => Geometry.mk "LineString" (lineVal l) Option.none)) =
      Except.ok (ls.map lineVal) :=
    coordsOfParts_map (fun _ => "LineString") lineVal ls
      (fun l _ => by simp [lineVal])
  simp only [decodeNN_code5, h1, h2]

lemma buildMultiPolygon_ok (pp : List (List Line))
    (h : pp.all (fun rs => rs.all closedLineB) = true) :
    OGRGeomBuilder._buildMultiPolygon (PyV.seq (pp.map polyVal)) =
      Except.ok (OGRGeom.mk 6 2 [] (pp.map polyHandle)) := by
  calc OGRGeomBuilder._buildMultiPolygon (PyV.seq (pp.map polyVal))
      = OGRGeomBuilder.buildSubList OGRGeomBuilder._buildPolygon
          (OGRGeom.mk 6 2 [] []) (pp.map polyVal) := rfl
    _ = Except.ok (OGRGeom.mk 6 2 [] ([] ++ pp.map polyHandle)) :=
      buildSubList_map _ polyVal polyHandle pp 6 2 [] []
        (fun rs hrs => buildPolygon_ok rs (List.all_eq_true.mp h rs hrs))
    _ = _ := by simp

lemma decode_mpolyHandle (pp : List (List Line)) :
    GeomBuilder.buildNN (OGRGeom.mk 6 2 [] (pp.map polyHandle)) =
      Except.ok (Geometry.mk "MultiPolygon"
        (PyV.seq (pp.map polyVal)) Option.none) := by
  have h1 : GeomBuilder.buildList (pp.map polyHandle) =
      Except.ok (pp.map (fun rs => Geometry.mk "Polygon" (polyVal rs) Option.none)) :=
    buildList_map polyHandle _ pp (fun rs _ => decode_polyHandle rs)
  have h2 : GeomBuilder.coordsOfParts
      (pp.map (fun rs => Geometry.mk "Polygon" (polyVal rs) Option.none)) =
      Except.ok (pp.map polyVal) :=
    coordsOfParts_map (fun _ => "Polygon") polyVal pp
      (fun rs _ => by simp [polyVal])
  simp only [decodeNN_code6, h1, h2]

lemma gcLoop_exists (ts : List GTree) :
    (∀ g ∈ ts, ∃ hg, OGRGeomBuilder.build (toGeometry g) = Except.ok hg ∧
        GeomBuilder.buildNN hg = Except.ok (toGeometry g)) →
    ∀ t d pts prts, ∃ hs,
      OGRGeomBuilder.gcLoop (OGRGeom.mk t d pts prts) (toGeometryList ts) =
          Except.ok (OGRGeom.mk t d pts (prts ++ hs)) ∧
        GeomBuilder.buildList hs = Except.ok (toGeometryList ts) := by
  induction ts with
  | nil =>
    intro _ t d pts prts
    exact ⟨[], by simp [toGeometryList, OGRGeomBuilder.gcLoop], rfl⟩
  | cons g gs ih =>
    intro h t d pts prts
    obtain ⟨hg, e1, e2⟩ := h g (List.mem_cons_self g gs)
    obtain ⟨hs, e3, e4⟩ :=
      ih (fun y hy => h y (List.mem_cons_of_mem g hy)) t d pts (prts ++ [hg])
    refine ⟨hg :: hs, ?_, ?_⟩
    · have step : OGRGeomBuilder.gcLoop (OGRGeom.mk t d pts prts)
          (toGeometryList (g :: gs)) =
          OGRGeomBuilder.gcLoop (OGRGeom.mk t d pts (prts ++ [hg]))
            (toGeometryList gs) := by
        simp only [toGeometryList, OGRGeomBuilder.gcLoop, e1]
        rfl
      rw [step, e3]
      simp
    · simp only [GeomBuilder.buildList, e2, e4, toGeometryList]

lemma ringsClosedList_mem (gs : List GTree) :
    ringsClosedList gs = true → ∀ g ∈ gs, ringsClosedB g = true := by
  induction gs with
  | nil => intro _ g hg; exact absurd hg (List.not_mem_nil g)
  | cons x xs ih =>
    intro h g hg
    simp only [ringsClosedList, Bool.and_eq_true] at h
    rcases List.mem_cons.mp hg with rfl | hgm
    · exact h.1
    · exact ih h.2 g hgm

lemma roundtrip_exists (t : GTree) : ringsClosedB t = true →
    ∃ hg, OGRGeomBuilder.build (toGeometry t) = Except.ok hg ∧
      GeomBuilder.buildNN hg = Except.ok (toGeometry t) := by
  induction t using GTree.indOn with
  | hpoint p =>
    intro _
    refine ⟨pointHandle p, ?_, ?_⟩
    · simp only [toGeometry, build_point_dispatch]
      exact buildPoint_ok p
    · simp only [toGeometry]
      exact decode_pointHandle p
  | hls l =>
    intro _
    refine ⟨lineHandle l, ?_, ?_⟩
    · simp only [toGeometry, build_ls_dispatch]
      exact buildLineString_ok l
    · simp only [toGeometry]
      exact decode_lineHandle l
  | hlr l =>
    intro h
    simp only [ringsClosedB] at h
    refine ⟨ringHandle l, ?_, ?_⟩
    · simp only [toGeometry, build_lr_dispatch]
      exact buildLinearRing_closed_ok l h
    · simp only [toGeometry]
      exact decode_ringHandle l
  | hpoly rs =>
    intro h
    simp only [ringsClosedB] at h
    refine ⟨polyHandle rs, ?_, ?_⟩
    · simp only [toGeometry, build_poly_dispatch]
      exact buildPolygon_ok rs h
    · simp only [toGeometry]
      exact decode_polyHandle rs
  | hmp ps =>
    intro _
    refine ⟨OGRGeom.mk 4 2 [] (ps.map pointHandle), ?_, ?_⟩
    · simp only [toGeometry, build_mp_dispatch]
      exact buildMultiPoint_ok ps
    · simp only [toGeometry]
      exact decode_mpHandle ps
  | hmls ls =>
    intro _
    refine ⟨OGRGeom.mk 5 2 [] (ls.map lineHandle), ?_, ?_⟩
    · simp only [toGeometry, build_mls_dispatch]
      exact buildMultiLineString_ok ls
    · simp only [toGeometry]
      exact decode_mlsHandle ls
  | hmpoly pp =>
    intro h
    simp only [ringsClosedB] at h
    refine ⟨OGRGeom.mk 6 2 [] (pp.map polyHandle), ?_, ?_⟩
    · simp only [toGeometry, build_mpoly_dispatch]
      exact buildMultiPolygon_ok pp h
    · simp only [toGeometry]
      exact decode_mpolyHandle pp
  | hgc gs hih =>
    intro h
    simp only [ringsClosedB] at h
    have hmem : ∀ g ∈ gs, ∃ hg,
        OGRGeomBuilder.build (toGeometry g) = Except.ok hg ∧
        GeomBuilder.buildNN hg = Except.ok (toGeometry g) :=
      fun g hgm => hih g hgm (ringsClosedList_mem gs h g hgm)
    obtain ⟨hs, e3, e4⟩ := gcLoop_exists gs hmem 7 2 [] []
    rw [List.nil_append] at e3
    refine ⟨OGRGeom.mk 7 2 [] hs, ?_, ?_⟩
    · simp only [toGeometry, build_gc_dispatch,
        OGRGeomBuilder._buildGeometryCollection]
      exact e3
    · simp only [toGeometry, decodeNN_code7, e4]

/-- C1: for every supported geometry type name and every well-formed
coordinate payload whose LinearRing and Polygon rings are already
closed, decoding the handle produced by encoding the tree (the
composition implemented by geometryRT) returns exactly the input tree:
same type name, same coordinate values, same order. -/
theorem geometryRT_roundtrip (t : GTree) (h : ringsClosedB t = true) :
    geometryRT (toGeometry t) = Except.ok (toGeometry t) := by
  obtain ⟨hg, e1, e2⟩ := roundtrip_exists t h
  unfold geometryRT
  rw [e1]
  exact e2

/-- C1 witness: a concrete collection holding a 3D point and the
closed square polygon of the specification round-trips exactly. -/
theorem geometryRT_roundtrip_witness :
    geometryRT (toGeometry (GTree.geometryCollection
      [GTree.point (Pos.p3 1 2 5),
       GTree.polygon [Line.l2 [(0, 0), (0, 1), (1, 1), (1, 0), (0, 0)]]])) =
    Except.ok (toGeometry (GTree.geometryCollection
      [GTree.point (Pos.p3 1 2 5),
       GTree.polygon [Line.l2 [(0, 0), (0, 1), (1, 1), (1, 0), (0, 0)]]])) :=
  geometryRT_roundtrip _ (by decide)

/-! ## Closing an unclosed ring -/

lemma lineTriples_unclosed (l : Line) (h : closedLineB l = false) :
    ¬ (lineTriples l).head? = (lineTriples l).getLast? := by
  intro hc
  have := (lineTriples_closed_iff l).mp hc
  rw [this] at h
  exact Bool.noConfusion h

lemma buildLinearRing_unclosed (l : Line) (h : closedLineB l = false) :
    ∃ f, (lineTriples l).head? = some f ∧
      OGRGeomBuilder._buildLinearRing (lineVal l) =
        Except.ok (OGRGeom.mk 101 (lineDim l) (lineTriples l ++ [f]) []) := by
  have hne := lineTriples_unclosed l h
  obtain ⟨f, hf⟩ : ∃ f, (lineTriples l).head? = some f := by
    cases hts : (lineTriples l).head? with
    | none =>
      exfalso
      apply hne
      rw [hts, List.head?_eq_none_iff.mp hts]
      rfl
    | some f => exact ⟨f, rfl⟩
  refine ⟨f, hf, ?_⟩
  calc OGRGeomBuilder._buildLinearRing (lineVal l)
      = (match OGRGeomBuilder.addAll (OGRGeom.mk 101 2 [] []) (lineVals l) with
         | Except.error e => Except.error e
         | Except.ok g2 => Except.ok (OGR_G_CloseRings g2)) := rfl
    _ = Except.ok (OGR_G_CloseRings
          (OGRGeom.mk 101 (lineDimFrom 2 l) ([] ++ lineTriples l) [])) := by
      rw [addAll_line]
    _ = Except.ok (OGRGeom.mk 101 (lineDim l) (lineTriples l ++ [f]) []) := by
      rw [List.nil_append]
      have hu : ¬ (OGRGeom.mk 101 (lineDimFrom 2 l) (lineTriples l) []).points.head? =
          (OGRGeom.mk 101 (lineDimFrom 2 l) (lineTriples l) []).points.getLast? := hne
      have hfu : (OGRGeom.mk 101 (lineDimFrom 2 l) (lineTriples l) []).points.head? =
          some f := hf
      rw [closeRings_unclosed _ f hfu hu]
      simp [OGRGeom.gtype, OGRGeom.ndims, OGRGeom.points, OGRGeom.parts, lineDim_eq]

/-- C6: for a LinearRing payload that is not closed, encode followed by
decode yields a nonempty coordinate sequence whose first and last
entries are equal; for an already closed payload the encoder appends
no additional point (ring closing is idempotent). -/
theorem linearRing_closing (l : Line) :
    (closedLineB l = false →
      ∃ cs, geometryRT (toGeometry (GTree.linearRing l)) =
          Except.ok (Geometry.mk "LinearRing" (PyV.seq cs) Option.none) ∧
        cs ≠ [] ∧ cs.head? = cs.getLast?) ∧
    (closedLineB l = true →
      OGRGeomBuilder._buildLinearRing (lineVal l) = Except.ok (ringHandle l) ∧
      (ringHandle l).points.length = (lineVals l).length) := by
  constructor
  · intro h
    obtain ⟨f, hf, henc⟩ := buildLinearRing_unclosed l h
    obtain ⟨t2, ht2⟩ : ∃ t2, lineTriples l = f :: t2 := by
      cases hts : lineTriples l with
      | nil => rw [hts] at hf; exact absurd hf (by simp)
      | cons a t2 =>
        rw [hts] at hf
        have : a = f := by simpa using hf
        exact ⟨t2, by rw [this]⟩
    refine ⟨(lineTriples l ++ [f]).map (GeomBuilder.coordTuple (lineDim l)),
      ?_, ?_, ?_⟩
    · unfold geometryRT
      simp only [toGeometry, build_lr_dispatch, henc]
      show GeomBuilder.buildNN
          (OGRGeom.mk 101 (lineDim l) (lineTriples l ++ [f]) []) = _
      rw [decodeNN_code101]
    · rw [ht2]
      simp
    · rw [ht2]
      have hhead : (((f :: t2) ++ [f]).map
          (GeomBuilder.coordTuple (lineDim l))).head? =
          some (GeomBuilder.coordTuple (lineDim l) f) := by
        simp
      have hlast : (((f :: t2) ++ [f]).map
          (GeomBuilder.coordTuple (lineDim l))).getLast? =
          some (GeomBuilder.coordTuple (lineDim l) f) := by
        rw [List.map_append]
        rw [show (List.map (GeomBuilder.coordTuple (lineDim l)) [f]) =
            [GeomBuilder.coordTuple (lineDim l) f] from rfl]
        exact List.getLast?_concat _
      rw [hhead, hlast]
  · intro h
    refine ⟨buildLinearRing_closed_ok l h, ?_⟩
    cases l <;> simp [ringHandle, lineTriples, lineVals, OGRGeom.points]

/-- C6 witness: the unclosed two-point ring comes back closed and
nonempty, and encoding an already closed triangle ring keeps exactly
its three points. -/
theorem linearRing_closing_witness :
    (∃ cs, geometryRT (toGeometry (GTree.linearRing (Line.l2 [(0, 0), (1, 1)]))) =
        Except.ok (Geometry.mk "LinearRing" (PyV.seq cs) Option.none) ∧
      cs ≠ [] ∧ cs.head? = cs.getLast?) ∧
    (OGRGeomBuilder._buildLinearRing (lineVal (Line.l2 [(0, 0), (1, 1), (0, 0)])) =
        Except.ok (ringHandle (Line.l2 [(0, 0), (1, 1), (0, 0)])) ∧
      (ringHandle (Line.l2 [(0, 0), (1, 1), (0, 0)])).points.length =
        (lineVals (Line.l2 [(0, 0), (1, 1), (0, 0)])).length) :=
  ⟨(linearRing_closing (Line.l2 [(0, 0), (1, 1)])).1 (by decide),
   (linearRing_closing (Line.l2 [(0, 0), (1, 1), (0, 0)])).2 (by decide)⟩

/-- C2: the resource-discipline claim fails on the code.  Decoding a
scratch handle of unsupported kind inside build_wkb raises before the
deletion statement, leaving one live handle; a polygon whose second
ring coordinate cannot be unpacked leaks both the polygon handle and
the partially built ring handle; only the success path of build_wkb
ends with no live handle. -/
theorem build_wkb_leak :
    build_wkb_counted (OGRGeom.mk 0 2 [] []) 0 =
        (Except.error PyErr.attributeError, 1) ∧
    buildPolygon_counted
        (PyV.seq [PyV.seq [PyV.seq [PyV.num 0, PyV.num 0],
          PyV.seq [PyV.num 1]]]) 0 =
        (Except.error (PyErr.valueError "unpack"), 2) ∧
    build_wkb_counted (OGRGeom.mk 1 2 [(1, 2, 0)] []) 0 =
        (Except.ok (Geometry.mk "Point"
          (PyV.seq [PyV.num 1, PyV.num 2]) Option.none), 0) :=
  ⟨rfl, rfl, rfl⟩

/-! ## Uniformly 2D handles decode without third components -/

lemma dim2AllList_mem (ps : List OGRGeom) :
    dim2AllList ps = true → ∀ p ∈ ps, dim2All p = true := by
  induction ps with
  | nil => intro _ p hp; exact absurd hp (List.not_mem_nil p)
  | cons q qs ih =>
    intro h p hp
    simp only [dim2AllList, Bool.and_eq_true] at h
    rcases List.mem_cons.mp hp with rfl | hp2
    · exact h.1
    · exact ih h.2 p hp2

lemma coordTuple_dim2 (d : Nat) (hd : d ≤ 2) (p : Int × Int × Int) :
    hasTriple (GeomBuilder.coordTuple d p) = false ∧
      isNumB (GeomBuilder.coordTuple d p) = false := by
  have hngt : ¬ d > 2 := by omega
  simp [GeomBuilder.coordTuple, hngt, hasTriple, anyTriple, isNumB]

lemma anyTriple_false (cs : List PyV) :
    (∀ v ∈ cs, hasTriple v = false) → anyTriple cs = false := by
  induction cs with
  | nil => intro _; rfl
  | cons v vs ih =>
    intro h
    simp only [anyTriple, h v (List.mem_cons_self v vs),
      ih (fun y hy => h y (List.mem_cons_of_mem v hy)), Bool.or_self]

lemma anyTriple_coordTuples (d : Nat) (hd : d ≤ 2)
    (pts : List (Int × Int × Int)) :
    anyTriple (pts.map (GeomBuilder.coordTuple d)) = false :=
  anyTriple_false _ (fun v hv => by
    obtain ⟨p, _, hpe⟩ := List.mem_map.mp hv
    rw [← hpe]
    exact (coordTuple_dim2 d hd p).1)

lemma seq_coordTuples_no_triple (d : Nat) (hd : d ≤ 2)
    (pts : List (Int × Int × Int)) :
    hasTriple (PyV.seq (pts.map (GeomBuilder.coordTuple d))) = false := by
  cases pts with
  | nil => rfl
  | cons p pts =>
    simp only [hasTriple, List.map_cons, List.all_cons,
      (coordTuple_dim2 d hd p).2, Bool.false_and, Bool.false_or]
    exact anyTriple_false _ (fun v hv => by
      rcases List.mem_cons.mp hv with rfl | hv2
      · exact (coordTuple_dim2 d hd p).1
      · obtain ⟨q, _, hqe⟩ := List.mem_map.mp hv2
        rw [← hqe]
        exact (coordTuple_dim2 d hd q).1)

lemma compound_no_triple (cs : List PyV)
    (h1 : ∀ v ∈ cs, hasTriple v = false)
    (h2 : ∀ v ∈ cs, isNumB v = false) :
    hasTriple (PyV.seq cs) = false := by
  cases cs with
  | nil => rfl
  | cons v vs =>
    simp only [hasTriple, List.all_cons, h2 v (List.mem_cons_self v vs),
      Bool.false_and, Bool.false_or]
    exact anyTriple_false _ h1

lemma coordinates_no_triple (part : Geometry) (h : geomHasTriple part = false) :
    hasTriple (Geometry.coordinates part) = false := by
  obtain ⟨tn, c, gs⟩ := part
  cases gs with
  | none => simpa [geomHasTriple, Geometry.coordinates] using h
  | some l =>
    simp only [geomHasTriple, Bool.or_eq_false_iff] at h
    simpa [Geometry.coordinates] using h.1

lemma geomListAnyTriple_false (parts : List Geometry) :
    (∀ p ∈ parts, geomHasTriple p = false) → geomListAnyTriple parts = false := by
  induction parts with
  | nil => intro _; rfl
  | cons p ps ih =>
    intro h
    simp only [geomListAnyTriple, h p (List.mem_cons_self p ps),
      ih (fun y hy => h y (List.mem_cons_of_mem p hy)), Bool.or_self]

lemma buildList_mem (ps : List OGRGeom) (parts : List Geometry) :
    GeomBuilder.buildList ps = Except.ok parts →
    ∀ part ∈ parts, ∃ p ∈ ps, GeomBuilder.buildNN p = Except.ok part := by
  induction ps generalizing parts with
  | nil =>
    intro h part hp
    simp only [GeomBuilder.buildList] at h
    injection h with h
    subst h
    exact absurd hp (List.not_mem_nil part)
  | cons q qs ih =>
    intro h part hp
    simp only [GeomBuilder.buildList] at h
    cases hq : GeomBuilder.buildNN q with
    | error e =>
      simp only [hq] at h
      exact Except.noConfusion h
    | ok t0 =>
      simp only [hq] at h
      cases hrest : GeomBuilder.buildList qs with
      | error e =>
        simp only [hrest] at h
        exact Except.noConfusion h
      | ok ts =>
        simp only [hrest] at h
        injection h with h
        subst h
        rcases List.mem_cons.mp hp with rfl | hp2
        · exact ⟨q, List.mem_cons_self q qs, hq⟩
        · obtain ⟨p, hpm, hpe⟩ := ih ts hrest part hp2
          exact ⟨p, List.mem_cons_of_mem q hpm, hpe⟩

lemma coordsOfParts_mem (parts : List Geometry) (cs : List PyV) :
    GeomBuilder.coordsOfParts parts = Except.ok cs →
    ∀ v ∈ cs, ∃ part ∈ parts, Geometry.coordinates part = v := by
  induction parts generalizing cs with
  | nil =>
    intro h v hv
    injection h with h
    subst h
    exact absurd hv (List.not_mem_nil v)
  | cons p ps ih =>
    intro h v hv
    obtain ⟨tn, c, gs⟩ := p
    cases c with
    | none =>
      simp only [GeomBuilder.coordsOfParts] at h
      exact Except.noConfusion h
    | num n =>
      simp only [GeomBuilder.coordsOfParts] at h
      cases hrest : GeomBuilder.coordsOfParts ps with
      | error e =>
        simp only [hrest] at h
        exact Except.noConfusion h
      | ok vs =>
        simp only [hrest] at h
        injection h with h
        subst h
        rcases List.mem_cons.mp hv with rfl | hv2
        · exact ⟨Geometry.mk tn (PyV.num n) gs, List.mem_cons_self _ _, rfl⟩
        · obtain ⟨part, hpm, hpe⟩ := ih vs hrest v hv2
          exact ⟨part, List.mem_cons_of_mem _ hpm, hpe⟩
    | seq vs0 =>
      simp only [GeomBuilder.coordsOfParts] at h
      cases hrest : GeomBuilder.coordsOfParts ps with
      | error e =>
        simp only [hrest] at h
        exact Except.noConfusion h
      | ok vs =>
        simp only [hrest] at h
        injection h with h
        subst h
        rcases List.mem_cons.mp hv with rfl | hv2
        · exact ⟨Geometry.mk tn (PyV.seq vs0) gs, List.mem_cons_self _ _, rfl⟩
        · obtain ⟨part, hpm, hpe⟩ := ih vs hrest v hv2
          exact ⟨part, List.mem_cons_of_mem _ hpm, hpe⟩

lemma compound_case (ps : List OGRGeom) (t : Geometry) (tag : String)
    (hdl : dim2AllList ps = true)
    (hih : ∀ p ∈ ps, dim2All p = true → ∀ t2,
        GeomBuilder.buildNN p = Except.ok t2 →
        geomHasTriple t2 = false ∧ isNumB (Geometry.coordinates t2) = false)
    (hb : (match GeomBuilder.buildList ps with
           | Except.error e => Except.error e
           | Except.ok parts =>
             match GeomBuilder.coordsOfParts parts with
             | Except.error e => Except.error e
             | Except.ok cs =>
               Except.ok (Geometry.mk tag (PyV.seq cs) Option.none)) =
          Except.ok t) :
    geomHasTriple t = false ∧ isNumB (Geometry.coordinates t) = false := by
  cases hbl : GeomBuilder.buildList ps with
  | error e =>
    simp only [hbl] at hb
    exact Except.noConfusion hb
  | ok parts =>
    simp only [hbl] at hb
    cases hcp : GeomBuilder.coordsOfParts parts with
    | error e =>
      simp only [hcp] at hb
      exact Except.noConfusion hb
    | ok cs =>
      simp only [hcp] at hb
      injection hb with hb
      subst hb
      have hpartsOk : ∀ part ∈ parts, geomHasTriple part = false ∧
          isNumB (Geometry.coordinates part) = false := by
        intro part hpm
        obtain ⟨p, hpmem, hpe⟩ := buildList_mem ps parts hbl part hpm
        exact hih p hpmem (dim2AllList_mem ps hdl p hpmem) part hpe
      have hcs1 : ∀ v ∈ cs, hasTriple v = false := by
        intro v hv
        obtain ⟨part, hpm, hpe⟩ := coordsOfParts_mem parts cs hcp v hv
        rw [← hpe]
        exact coordinates_no_triple part (hpartsOk part hpm).1
      have hcs2 : ∀ v ∈ cs, isNumB v = false := by
        intro v hv
        obtain ⟨part, hpm, hpe⟩ := coordsOfParts_mem parts cs hcp v hv
        rw [← hpe]
        exact (hpartsOk part hpm).2
      constructor
      · simp only [geomHasTriple]
        exact compound_no_triple cs hcs1 hcs2
      · simp [Geometry.coordinates, isNumB]

lemma gc_case (ps : List OGRGeom) (t : Geometry)
    (hdl : dim2AllList ps = true)
    (hih : ∀ p ∈ ps, dim2All p = true → ∀ t2,
        GeomBuilder.buildNN p = Except.ok t2 →
        geomHasTriple t2 = false ∧ isNumB (Geometry.coordinates t2) = false)
    (hb : (match GeomBuilder.buildList ps with
           | Except.error e => Except.error e
           | Except.ok parts =>
             Except.ok (Geometry.mk "GeometryCollection" PyV.none (some parts))) =
          Except.ok t) :
    geomHasTriple t = false ∧ isNumB (Geometry.coordinates t) = false := by
  cases hbl : GeomBuilder.buildList ps with
  | error e =>
    simp only [hbl] at hb
    exact Except.noConfusion hb
  | ok parts =>
    simp only [hbl] at hb
    injection hb with hb
    subst hb
    have hpartsOk : ∀ part ∈ parts, geomHasTriple part = false := by
      intro part hpm
      obtain ⟨p, hpmem, hpe⟩ := buildList_mem ps parts hbl part hpm
      exact (hih p hpmem (dim2AllList_mem ps hdl p hpmem) part hpe).1
    constructor
    · simp only [geomHasTriple]
      rw [geomListAnyTriple_false parts hpartsOk]
      rfl
    · simp [Geometry.coordinates, isNumB]

lemma buildNN_dim2 (g : OGRGeom) :
    dim2All g = true → ∀ t, GeomBuilder.buildNN g = Except.ok t →
      geomHasTriple t = false ∧ isNumB (Geometry.coordinates t) = false := by
  induction g using OGRGeom.indOn with
  | h c d pts ps hih =>
    intro hd t hb
    simp only [dim2All, Bool.and_eq_true, decide_eq_true_eq] at hd
    simp only [GeomBuilder.buildNN] at hb
    cases hn : nameForCode
        (OGR_G_GetGeometryType (OGRGeom.mk c d pts ps) % 4294967296) with
    | error e =>
      simp only [hn] at hb
      exact Except.noConfusion hb
    | ok name =>
      simp only [hn, OGR_G_GetCoordinateDimension, OGRGeom.ndims,
        GeomBuilder._buildCoords, OGRGeom.points] at hb
      split_ifs at hb with hP hLS hLR hPoly hMP hMLS hMPoly hGC
      · -- Point
        cases hh : (pts.map (GeomBuilder.coordTuple d)).head? with
        | none =>
          simp only [hh] at hb
          exact Except.noConfusion hb
        | some c0 =>
          simp only [hh] at hb
          injection hb with hb
          subst hb
          have hmem : c0 ∈ pts.map (GeomBuilder.coordTuple d) :=
            List.mem_of_mem_head? (Option.mem_def.mpr hh)
          obtain ⟨p, _, hpe⟩ := List.mem_map.mp hmem
          constructor
          · simp only [geomHasTriple]
            rw [← hpe]
            exact (coordTuple_dim2 d hd.1 p).1
          · simp only [Geometry.coordinates]
            rw [← hpe]
            exact (coordTuple_dim2 d hd.1 p).2
      · -- LineString
        injection hb with hb
        subst hb
        refine ⟨?_, by simp [Geometry.coordinates, isNumB]⟩
        simp only [geomHasTriple]
        exact seq_coordTuples_no_triple d hd.1 pts
      · -- LinearRing
        injection hb with hb
        subst hb
        refine ⟨?_, by simp [Geometry.coordinates, isNumB]⟩
        simp only [geomHasTriple]
        exact seq_coordTuples_no_triple d hd.1 pts
      · exact compound_case ps t "Polygon" hd.2 hih hb
      · exact compound_case ps t "MultiPoint" hd.2 hih hb
      · exact compound_case ps t "MultiLineString" hd.2 hih hb
      · exact compound_case ps t "MultiPolygon" hd.2 hih hb
      · exact gc_case ps t hd.2 hih hb

/-- C3 counterexample: a polygon handle reporting coordinate dimension
2 at its root, holding a ring child that reports dimension 3, decodes
to output containing a three-component coordinate: the decoder re-reads
the dimension for each child subtree with a fresh builder. -/
theorem decode_dim2_counterexample :
    OGR_G_GetCoordinateDimension
        (OGRGeom.mk 3 2 [] [OGRGeom.mk 101 3 [(1, 2, 5)] []]) = 2 ∧
    GeomBuilder.build (some (OGRGeom.mk 3 2 [] [OGRGeom.mk 101 3 [(1, 2, 5)] []])) =
      Except.ok (Geometry.mk "Polygon"
        (PyV.seq [PyV.seq [PyV.seq [PyV.num 1, PyV.num 2, PyV.num 5]]])
        Option.none) ∧
    geomHasTriple (Geometry.mk "Polygon"
        (PyV.seq [PyV.seq [PyV.seq [PyV.num 1, PyV.num 2, PyV.num 5]]])
        Option.none) = true :=
  ⟨rfl, rfl, rfl⟩

/-- C3 amended: within one build call the coordinate dimension is read
once and applied uniformly to every point of that node, and when every
node of the handle (the root and all children, since children are
decoded by fresh builders that re-read their own dimension) reports
dimension at most 2, the decoded output contains no three-component
coordinate anywhere. -/
theorem decode_dim2_no_z (g : OGRGeom) (t : Geometry)
    (hd : dim2All g = true) (hb : GeomBuilder.build (some g) = Except.ok t) :
    geomHasTriple t = false := by
  have hb2 : GeomBuilder.buildNN g = Except.ok t := hb
  exact (buildNN_dim2 g hd t hb2).1

/-- C3 amended witness: a uniformly 2D polygon handle decodes with no
third components, even though the child stores a nonzero z that the
dimension suppresses. -/
theorem decode_dim2_no_z_witness :
    dim2All (OGRGeom.mk 3 2 [] [OGRGeom.mk 101 2 [(1, 2, 9)] []]) = true ∧
    GeomBuilder.build (some (OGRGeom.mk 3 2 [] [OGRGeom.mk 101 2 [(1, 2, 9)] []])) =
      Except.ok (Geometry.mk "Polygon"
        (PyV.seq [PyV.seq [PyV.seq [PyV.num 1, PyV.num 2]]]) Option.none) ∧
    geomHasTriple (Geometry.mk "Polygon"
        (PyV.seq [PyV.seq [PyV.seq [PyV.num 1, PyV.num 2]]]) Option.none) = false :=
  ⟨by decide, rfl,
   decode_dim2_no_z (OGRGeom.mk 3 2 [] [OGRGeom.mk 101 2 [(1, 2, 9)] []])
     (Geometry.mk "Polygon" (PyV.seq [PyV.seq [PyV.seq [PyV.num 1, PyV.num 2]]])
       Option.none) (by decide) rfl⟩

/-! ## Unsupported kinds -/

/-- The eight type names the codec can construct. -/
def constructibleNames : List String :=
  ["Point", "LineString", "LinearRing", "Polygon", "MultiPoint",
   "MultiLineString", "MultiPolygon", "GeometryCollection"]

lemma decode_unsupported (g : OGRGeom) (name : String)
    (hn : nameForCode (OGR_G_GetGeometryType g % 4294967296) = Except.ok name)
    (hmem : name ∉ constructibleNames) :
    GeomBuilder.build (some g) = Except.error PyErr.attributeError := by
  obtain ⟨c, d, pts, ps⟩ := g
  show GeomBuilder.buildNN _ = _
  simp only [GeomBuilder.buildNN]
  simp only [constructibleNames, List.mem_cons, List.not_mem_nil, or_false,
    not_or] at hmem
  simp only [hn]
  rw [if_neg hmem.1, if_neg hmem.2.1, if_neg hmem.2.2.1, if_neg hmem.2.2.2.1,
    if_neg hmem.2.2.2.2.1, if_neg hmem.2.2.2.2.2.1,
    if_neg hmem.2.2.2.2.2.2.1, if_neg hmem.2.2.2.2.2.2.2]

lemma encode_unsupported (tn : String) (c : PyV) (gs : Option (List Geometry))
    (hmem : tn ∉ constructibleNames) :
    OGRGeomBuilder.build (Geometry.mk tn c gs) =
      Except.error (PyErr.valueError "Unsupported geometry type") := by
  simp only [OGRGeomBuilder.build]
  simp only [constructibleNames, List.mem_cons, List.not_mem_nil, or_false,
    not_or] at hmem
  rw [if_neg hmem.1, if_neg hmem.2.1, if_neg hmem.2.2.1, if_neg hmem.2.2.2.1,
    if_neg hmem.2.2.2.2.1, if_neg hmem.2.2.2.2.2.1,
    if_neg hmem.2.2.2.2.2.2.1, if_neg hmem.2.2.2.2.2.2.2]

/-- C4: a handle whose resolved registry name is outside the eight
constructible kinds (Unknown, None) fails to decode with
AttributeError, the runtime form of UnsupportedGeometryType in the
source, and a tree whose type name is outside the eight fails to
encode with ValueError. -/
theorem unsupported_type_errors :
    (∀ (g : OGRGeom) (name : String),
      nameForCode (OGR_G_GetGeometryType g % 4294967296) = Except.ok name →
      name ∉ constructibleNames →
      GeomBuilder.build (some g) = Except.error PyErr.attributeError) ∧
    (∀ (tn : String) (c : PyV) (gs : Option (List Geometry)),
      tn ∉ constructibleNames →
      OGRGeomBuilder.build (Geometry.mk tn c gs) =
        Except.error (PyErr.valueError "Unsupported geometry type")) :=
  ⟨decode_unsupported, encode_unsupported⟩

/-- C4 witness: decoding Unknown (code 0) and None (code 100) handles
raises AttributeError; encoding a tree typed Unknown raises
ValueError. -/
theorem unsupported_type_errors_witness :
    GeomBuilder.build (some (OGRGeom.mk 0 2 [] [])) =
      Except.error PyErr.attributeError ∧
    GeomBuilder.build (some (OGRGeom.mk 100 2 [] [])) =
      Except.error PyErr.attributeError ∧
    OGRGeomBuilder.build (Geometry.mk "Unknown" PyV.none Option.none) =
      Except.error (PyErr.valueError "Unsupported geometry type") :=
  ⟨unsupported_type_errors.1 (OGRGeom.mk 0 2 [] []) "Unknown" rfl (by decide),
   unsupported_type_errors.1 (OGRGeom.mk 100 2 [] []) "None" rfl (by decide),
   unsupported_type_errors.2 "Unknown" PyV.none Option.none (by decide)⟩

/-- C5: when the masked code is not in the registry, the lookup raises
KeyError (the UnknownTypeCode failure) and in particular never
produces any name, so there is no silent Unknown fallback. -/
theorem nameForCode_unknown_fails (code : Nat)
    (h : GEOMETRY_TYPES.lookup (maskCode code) = Option.none) :
    nameForCode code = Except.error PyErr.keyError ∧
    ∀ n, nameForCode code ≠ Except.ok n := by
  unfold nameForCode
  rw [h]
  exact ⟨rfl, fun n hn => Except.noConfusion hn⟩

/-- C5 witness: code 999 masks to 999, is absent from the registry,
fails with KeyError and does not map to Unknown. -/
theorem nameForCode_unknown_fails_witness :
    GEOMETRY_TYPES.lookup (maskCode 999) = Option.none ∧
    nameForCode 999 = Except.error PyErr.keyError ∧
    nameForCode 999 ≠ Except.ok "Unknown" :=
  ⟨rfl, (nameForCode_unknown_fails 999 rfl).1,
   (nameForCode_unknown_fails 999 rfl).2 "Unknown"⟩

/-! ## The inverse name mapping -/

/-- Modelled from the spec: `codeForName` as specified fails with
UnknownTypeName for every name outside the eight constructible kinds,
and otherwise returns the code of the inverse mapping. -/
def codeForName_spec (name : String) : Except PyErr Nat :=
  if name ∈ constructibleNames then
    match GEOJSON2OGR_GEOMETRY_TYPES name with
    | some c => Except.ok c
    | Option.none => Except.error PyErr.keyError
  else Except.error PyErr.keyError

/-- The registry names that denote no independently constructible
kind. -/
def nonConstructibleNames : List String :=
  ["Unknown", "None", "3D Point", "3D LineString", "3D Polygon",
   "3D MultiPoint", "3D MultiLineString", "3D MultiPolygon",
   "3D GeometryCollection"]

/-- C7 counterexample: the inverse mapping of the source returns codes
for Unknown, None and a 3D alias instead of failing as the specified
codeForName does. -/
theorem codeForName_counterexample :
    GEOJSON2OGR_GEOMETRY_TYPES "Unknown" = some 0 ∧
    GEOJSON2OGR_GEOMETRY_TYPES "None" = some 100 ∧
    GEOJSON2OGR_GEOMETRY_TYPES "3D Point" = some 2147483649 ∧
    codeForName_spec "Unknown" = Except.error PyErr.keyError :=
  ⟨rfl, rfl, rfl, rfl⟩

/-- C7 amended: the inverse mapping built from the registry contains
all seventeen names, so looking up Unknown, None or a 3D alias
succeeds with that code rather than failing; non-constructible kinds
are instead rejected later, by the encoder dispatch, with ValueError. -/
theorem codeForName_amended :
    (∀ name ∈ nonConstructibleNames,
      ∃ code, GEOJSON2OGR_GEOMETRY_TYPES name = some code) ∧
    (∀ name ∈ nonConstructibleNames, ∀ (c : PyV) (gs : Option (List Geometry)),
      OGRGeomBuilder.build (Geometry.mk name c gs) =
        Except.error (PyErr.valueError "Unsupported geometry type")) := by
  constructor
  · intro name hname
    fin_cases hname <;> exact ⟨_, rfl⟩
  · intro name hname c gs
    refine encode_unsupported name c gs ?_
    fin_cases hname <;> decide
/-- C7 amended witness: the Unknown name gets code 0 from the mapping
while the encoder rejects an Unknown-typed tree. -/
theorem codeForName_amended_witness :
    (∃ code, GEOJSON2OGR_GEOMETRY_TYPES "Unknown" = some code) ∧
    OGRGeomBuilder.build (Geometry.mk "Unknown" (PyV.num 0) Option.none) =
      Except.error (PyErr.valueError "Unsupported geometry type") :=
  ⟨codeForName_amended.1 "Unknown" (by decide),
   codeForName_amended.2 "Unknown" (by decide) (PyV.num 0) Option.none⟩

/-- C8: for every base code 1..7, setting and then masking off bit 31
recovers the base code, and the registry resolves the flagged and the
base code to the same name, which exists. -/
theorem mask3D_nameForCode : ∀ b : Nat, b < 8 → 1 ≤ b →
    maskCode (b ||| 0x80000000) = b ∧
    nameForCode (b ||| 0x80000000) = nameForCode b ∧
    (nameForCode b).toOption.isSome = true := by decide

/-- C8 witness: the Polygon code 3 with the 3D bit masks back to 3 and
resolves to the same name as 3. -/
theorem mask3D_nameForCode_witness :
    maskCode (3 ||| 0x80000000) = 3 ∧
    nameForCode (3 ||| 0x80000000) = nameForCode 3 ∧
    (nameForCode 3).toOption.isSome = true :=
  mask3D_nameForCode 3 (by decide) (by decide)

/-- C9: a non-null handle whose code resolves to Point but which has
no points fails decoding with IndexError, from taking element 0 of the
empty coordinate list; there is no point-count guard. -/
theorem point_empty_index_error (c d : Nat) (ps : List OGRGeom)
    (hn : nameForCode (c % 4294967296) = Except.ok "Point") :
    GeomBuilder.build (some (OGRGeom.mk c d [] ps)) =
      Except.error PyErr.indexError := by
  show GeomBuilder.buildNN _ = _
  simp only [GeomBuilder.buildNN]
  have hn2 : nameForCode
      (OGR_G_GetGeometryType (OGRGeom.mk c d [] ps) % 4294967296) =
      Except.ok "Point" := hn
  simp only [hn2]
  rfl

/-- C9 witness: the empty 2D Point handle decodes to IndexError. -/
theorem point_empty_index_error_witness :
    GeomBuilder.build (some (OGRGeom.mk 1 2 [] [])) =
      Except.error PyErr.indexError :=
  point_empty_index_error 1 2 [] rfl

/-- C10: a numeric coordinate of length exactly 2 goes to the 2D
add-point call; length at least 3 goes to the 3D call with exactly the
first three components, discarding the rest; and length 0 or 1 fails
with the unpacking ValueError. -/
theorem addPoint_arity (g : OGRGeom) (xs : List Int) :
    (xs.length = 2 →
      OGRGeomBuilder._addPointToGeometry g (PyV.seq (xs.map PyV.num)) =
        Except.ok (OGR_G_AddPoint_2D g (xs.getD 0 0) (xs.getD 1 0))) ∧
    (3 ≤ xs.length →
      OGRGeomBuilder._addPointToGeometry g (PyV.seq (xs.map PyV.num)) =
        Except.ok (OGR_G_AddPoint g (xs.getD 0 0) (xs.getD 1 0) (xs.getD 2 0))) ∧
    (xs.length < 2 →
      OGRGeomBuilder._addPointToGeometry g (PyV.seq (xs.map PyV.num)) =
        Except.error (PyErr.valueError "unpack")) := by
  rcases xs with _ | ⟨a, _ | ⟨b, _ | ⟨c, rest⟩⟩⟩
  · refine ⟨?_, ?_, fun _ => rfl⟩
    · intro h
      simp at h
    · intro h
      simp at h
  · refine ⟨?_, ?_, fun _ => rfl⟩
    · intro h
      simp at h
    · intro h
      simp at h
  · refine ⟨fun _ => rfl, ?_, ?_⟩
    · intro h
      simp at h
    · intro h
      simp at h
  · refine ⟨?_, fun _ => ?_, ?_⟩
    · intro h
      simp only [List.length_cons] at h
      omega
    · show OGRGeomBuilder._addPointToGeometry g
          (PyV.seq ((a :: b :: c :: rest).map PyV.num)) = _
      simp only [OGRGeomBuilder._addPointToGeometry, List.map_cons]
      split
      · rename_i hcond
        exfalso
        simp only [List.length_cons, List.length_map] at hcond
        omega
      · rfl
    · intro h
      simp only [List.length_cons] at h
      omega

/-- C10 witness: a four-component coordinate uses the 3D call with the
first three values, a one-component coordinate fails to unpack, and a
pair uses the 2D call. -/
theorem addPoint_arity_witness :
    OGRGeomBuilder._addPointToGeometry (OGR_G_CreateGeometry 2)
        (PyV.seq ([1, 2, 3, 4].map PyV.num)) =
      Except.ok (OGR_G_AddPoint (OGR_G_CreateGeometry 2) 1 2 3) ∧
    OGRGeomBuilder._addPointToGeometry (OGR_G_CreateGeometry 2)
        (PyV.seq ([5].map PyV.num)) =
      Except.error (PyErr.valueError "unpack") ∧
    OGRGeomBuilder._addPointToGeometry (OGR_G_CreateGeometry 2)
        (PyV.seq ([1, 2].map PyV.num)) =
      Except.ok (OGR_G_AddPoint_2D (OGR_G_CreateGeometry 2) 1 2) :=
  ⟨(addPoint_arity (OGR_G_CreateGeometry 2) [1, 2, 3, 4]).2.1 (by decide),
   (addPoint_arity (OGR_G_CreateGeometry 2) [5]).2.2 (by decide),
   (addPoint_arity (OGR_G_CreateGeometry 2) [1, 2]).1 rfl⟩

end Fiona
